import Mathlib

/-!
# Hexitec camera plugin: acquisition worker

Shallow embedding of `src/src/HexitecCamera.cpp` (class `lima::Hexitec::Camera`
with its nested `AcqThread` and `TimerThread`), and proofs about the
frame-retrieval state machine of `Camera::AcqThread::threadFunction`, the bias
cycle of `Camera::TimerThread::threadFunction` and the configuration accessors.

Modelling conventions.

* The members of `Camera` and `Camera::Private` that the embedded functions
  read or write are the fields of the structure `Camera`; the C++ `int`
  counters are mathematical integers (`Int`, wrap-around at 2^31 is not
  modelled); a `double` member is carried as the rational number it denotes,
  and the results of double arithmetic are inputs of the model.
* Calls to the external collaborators (vendor SDK, frame sink, sleeps) and
  the status writes are recorded, in program order, in the ghost field
  `Camera.trace`.
* What the environment contributes to a run is an explicit input: the vendor
  return codes, the answer of the sink to `newFrameReady`, and the writes of
  the other threads to the shared atomics (`stopAcq()` of the controlling
  thread, the status writes of the bias-cycling thread).
* `THROW_HW_ERROR` is modelled with `Except`: `.error cam` is the camera at the
  point where the exception is raised.
-/

namespace Hexitec

/-! ## Data model -/

/-- Camera status, `Camera::Status`. Modelled from the spec: the declaring
header `HexitecCamera.h` is not among the sources; these are the six members
the spec lists and the source uses. -/
inductive Status where
  | Initialising
  | Ready
  | Exposure
  | Readout
  | Paused
  | Fault
  deriving DecidableEq

/-- Trigger modes of the host framework (`lima::TrigMode`); the source names
`IntTrig`, `IntTrigMult`, `ExtTrigSingle`, `ExtTrigMult` and `ExtGate` and sends
every other mode to the `default` branch. -/
inductive TrigMode where
  | IntTrig
  | IntTrigMult
  | ExtTrigSingle
  | ExtTrigMult
  | ExtGate
  | ExtStartStop
  | ExtTrigReadout
  deriving DecidableEq

/-- Modelled from the spec: the vendor header `HexitecApi.h` is not among the
sources; `HexitecAPI::NO_ERROR` is the success code of every vendor call,
different from the error codes 27, 2818 and 30 the worker tests for. -/
def NO_ERROR : Int := 0

/-- Calls to the external collaborators and status writes, as they appear in
the source: `setStatus`, `m_future_result.get()`, the vendor calls `startAcq`,
`stopAcq`, `setHvBiasOn(bool)`, `retrieveBuffer(ptr, timeout)`,
`setTriggeredFrameCount(n)`, the buffer-manager calls `getNbBuffers`,
`setFrameDim`, `setNbBuffers(n)`, `getFrameBufferPtr(n)`,
`newFrameReady(frame_info)`, the launch of the asynchronous bias-settle task,
`m_cond.broadcast()`, `std::this_thread::sleep_for(ms)` and the vendor trigger
calls of `setTrigMode`. -/
inductive Effect where
  | setStatus (status : Status)
  | futureGet
  | futureAsync (ms : Int)
  | startAcq
  | stopAcq
  | setHvBiasOn (state : Bool)
  | setTriggeredFrameCount (n : Int)
  | getNbBuffers
  | setFrameDim
  | setNbBuffers (n : Int)
  | getFrameBufferPtr (frame_nb : Int)
  | retrieveBuffer (timeout : Int)
  | newFrameReady (acq_frame_nb : Int)
  | broadcast
  | sleep_for (ms : Int)
  | setTriggerCountingMode (state : Bool)
  | disableTriggerGate
  | disableTriggerMode
  | enableTriggerMode
  | enableTriggerGate
  deriving DecidableEq

/-- The members of `Camera` and of `Camera::Private` used by the acquisition
life cycle, under the names the source uses, and the ghost trace of effects. -/
structure Camera where
  m_bufferCount : Int
  m_timeout : Int
  m_trig_mode : TrigMode
  m_nb_frames : Int
  m_framesPerTrigger : Int
  m_exp_time : ℚ
  m_frameTime : ℚ
  m_errCount : Int
  m_saved_frame_nb : Int
  m_biasVoltageRefreshInterval : Int
  m_biasVoltageRefreshTime : Int
  m_biasVoltageSettleTime : Int
  m_quit : Bool
  m_acq_started : Bool
  m_thread_running : Bool
  m_finished_saving : Bool
  m_image_number : Int
  m_status : Status
  trace : List Effect

/-- Appends one effect to the ghost trace. -/
def Camera.emit (e : Effect) (cam : Camera) : Camera :=
  { cam with trace := cam.trace ++ [e] }

/-! ## Camera facade -/

/-- Source `Camera::getStatus`: reads the atomic status. -/
def Camera.getStatus (cam : Camera) : Status :=
  cam.m_status

/-- Source `Camera::setStatus`: writes the atomic status. -/
def Camera.setStatus (status : Status) (cam : Camera) : Camera :=
  { cam with m_status := status, trace := cam.trace ++ [Effect.setStatus status] }

/-- Source `Camera::setHvBiasOn`: vendor `setHvBiasOn(true)` returning `rc`; raises a
hardware error when `rc` is not `NO_ERROR`. -/
def Camera.setHvBiasOn (rc : Int) (cam : Camera) : Except Camera Camera :=
  let cam := cam.emit (Effect.setHvBiasOn true)
  if rc ≠ NO_ERROR then Except.error cam else Except.ok cam

/-- Source `Camera::setHvBiasOff`: vendor `setHvBiasOn(false)` returning `rc`; raises
a hardware error when `rc` is not `NO_ERROR`. -/
def Camera.setHvBiasOff (rc : Int) (cam : Camera) : Except Camera Camera :=
  let cam := cam.emit (Effect.setHvBiasOn false)
  if rc ≠ NO_ERROR then Except.error cam else Except.ok cam

/-- Source `Camera::prepareAcq`; `biasRc` is the code of the vendor bias-on call. The
frame counter is cleared first; when the bias-on call raises, the rest of the
body is not executed. -/
def Camera.prepareAcq (biasRc : Int) (cam : Camera) : Except Camera Camera :=
  let cam := { cam with m_image_number := 0 }
  match cam.setHvBiasOn biasRc with
  | Except.error cam => Except.error cam
  | Except.ok cam =>
    let cam := cam.emit (Effect.futureAsync cam.m_biasVoltageRefreshTime)
    let cam := cam.emit Effect.setFrameDim
    let cam := cam.emit (Effect.setNbBuffers cam.m_bufferCount)
    let cam :=
      if cam.m_framesPerTrigger = 0 then
        { cam with m_framesPerTrigger := cam.m_nb_frames }
      else cam
    let cam :=
      if cam.m_trig_mode = TrigMode.ExtTrigSingle ∨ cam.m_trig_mode = TrigMode.ExtTrigMult then
        cam.emit (Effect.setTriggeredFrameCount cam.m_framesPerTrigger)
      else cam
    Except.ok cam

/-- Source `Camera::startAcq`: clears the skipped-frame and saved-frame counters,
sets `m_acq_started` and broadcasts the condition. `m_image_number` is not
written here. -/
def Camera.startAcq (cam : Camera) : Camera :=
  let cam := { cam with m_errCount := 0 }
  let cam := { cam with m_acq_started := true }
  let cam := { cam with m_saved_frame_nb := 0 }
  cam.emit Effect.broadcast

/-- Source `Camera::stopAcq`: clears `m_acq_started` when it is set. -/
def Camera.stopAcq (cam : Camera) : Camera :=
  if cam.m_acq_started then { cam with m_acq_started := false } else cam

/-! ## Acquisition worker (`Camera::AcqThread::threadFunction`) -/

/-- The worker together with the camera it drives: the locals `rc` and
`trigger_failed` are declared before the outer `while (true)` and keep their
value from one run to the next; `continue_acq` is declared at the start of
each run. -/
structure AcqState where
  cam : Camera
  rc : Int
  trigger_failed : Bool
  continue_acq : Bool

/-- What the environment contributes to one evaluation of the retrieval loop:
whether the controlling thread called `stopAcq()` since the previous
evaluation of the loop condition, the status written by the bias-cycling
thread since then (if any), the code returned by the vendor `retrieveBuffer`
and the answer of the sink to `newFrameReady`. -/
structure Tick where
  stopAcq : Bool
  timerStatus : Option Status
  rc : Int
  newFrameReady : Bool

/-- The writes of the other threads to the shared atomics before the worker
evaluates its loop condition. -/
def Tick.interfere (t : Tick) (cam : Camera) : Camera :=
  let cam := if t.stopAcq then cam.stopAcq else cam
  match t.timerStatus with
  | some status => { cam with m_status := status }
  | none => cam

/-- The loop state after the writes of the other threads that precede one
evaluation of the loop condition. -/
def Tick.arrive (t : Tick) (s : AcqState) : AcqState :=
  { s with cam := t.interfere s.cam }

/-- The environment of one run: vendor codes of `startAcq`, of the bias-off
call on the start-failure path, of `stopAcq` and of the bias-off call of the
stopping phase, and the ticks of the retrieval loop. -/
structure RunEnv where
  startRc : Int
  startBiasRc : Int
  ticks : Nat → Tick
  stopRc : Int
  stopBiasRc : Int

/-- Starting phase (source lines 605-625). The outer `continue_acq` is set to
`true`; the two statements `bool continue_acq = false;` inside the `if` block
and inside the handler declare new block-local variables, which end with
their block, so the outer variable is still `true` afterwards. The local `rc`
receives the vendor start code before anything in the `try` block can raise:
the only call that raises is `setHvBiasOff`, and its hardware error is caught
by the handler (the `get()` of the bias-settle future returns normally, the
task it waits for only builds a duration). -/
def AcqThread.starting (startRc biasRc : Int) (s : AcqState) : AcqState :=
  let cam := { s.cam with m_finished_saving := false }
  let cam := { cam with m_thread_running := true }
  let cam := cam.setStatus Status.Exposure
  let continue_acq := true
  let cam := cam.emit Effect.futureGet
  let cam := cam.emit Effect.startAcq
  let rc := startRc
  let cam :=
    if rc ≠ NO_ERROR then
      match cam.setHvBiasOff biasRc with
      | Except.ok cam =>
        let _continue_acq_if_block := false
        cam
      | Except.error cam =>
        let _continue_acq_handler := false
        cam
    else cam
  let cam := cam.emit Effect.getNbBuffers
  { cam := cam, rc := rc, trigger_failed := s.trigger_failed, continue_acq := continue_acq }

/-- Condition of the retrieval loop (source line 628). -/
def AcqState.loopCond (s : AcqState) : Bool :=
  s.continue_acq && s.cam.m_acq_started &&
    (s.cam.m_nb_frames == 0 || decide (s.cam.m_image_number < s.cam.m_nb_frames))

/-- Body of the retrieval loop (source lines 630-655). The second component
is `true` when the body leaves the loop with `break`. -/
def AcqThread.loopBody (t : Tick) (s : AcqState) : AcqState × Bool :=
  let cam := s.cam.emit (Effect.getFrameBufferPtr s.cam.m_image_number)
  let cam := cam.emit (Effect.retrieveBuffer cam.m_timeout)
  let s := { s with cam := cam, rc := t.rc }
  if s.rc = NO_ERROR then
    if s.cam.getStatus = Status.Exposure then
      let cam := s.cam.emit (Effect.newFrameReady s.cam.m_image_number)
      let s := { s with cam := cam, continue_acq := t.newFrameReady }
      ({ s with cam := { s.cam with m_image_number := s.cam.m_image_number + 1 } }, false)
    else
      ({ s with cam := s.cam.emit (Effect.sleep_for 500) }, false)
  else if s.rc = 27 ∨ s.rc = 2818 then
    ({ s with cam := { s.cam with m_errCount := s.cam.m_errCount + 1 } }, false)
  else if s.rc = 30 ∧ s.cam.m_trig_mode = TrigMode.ExtGate ∧ s.cam.m_image_number = 0 then
    ({ s with trigger_failed := true }, true)
  else if s.rc = 30 ∧ s.cam.m_trig_mode = TrigMode.ExtGate ∧ s.cam.m_image_number > 0 then
    ({ s with rc := NO_ERROR }, true)
  else
    (s, true)

/-- The retrieval loop, run for at most `fuel` evaluations of its condition,
starting with tick number `i`. The second component is `true` when the loop
has been left (condition false, or `break`), `false` when it is still
iterating after `fuel` evaluations. -/
def AcqThread.retrieveLoop (ticks : Nat → Tick) : Nat → Nat → AcqState → AcqState × Bool
  | 0, _, s => (s, false)
  | fuel + 1, i, s =>
    let s := (ticks i).arrive s
    if s.loopCond then
      match AcqThread.loopBody (ticks i) s with
      | (s, true) => (s, true)
      | (s, false) => AcqThread.retrieveLoop ticks fuel (i + 1) s
    else (s, true)

/-- Stopping phase and final status (source lines 662-682). The bias-off call
is outside any `try` block: when it raises, the exception leaves
`threadFunction` and the final status is not written. -/
def AcqThread.stopping (stopRc biasRc : Int) (s : AcqState) : Except AcqState AcqState :=
  let cam := { s.cam with m_acq_started := false }
  let cam := cam.emit Effect.stopAcq
  let rc2 := stopRc
  let r :=
    if !s.trigger_failed then (cam.setStatus Status.Readout).setHvBiasOff biasRc
    else Except.ok cam
  match r with
  | Except.error cam => Except.error { s with cam := cam }
  | Except.ok cam =>
    if s.rc = NO_ERROR ∧ rc2 = NO_ERROR then
      Except.ok { s with cam := cam.setStatus Status.Ready }
    else
      Except.ok { s with cam := cam.setStatus Status.Fault }

/-- How far a run of the worker got. -/
inductive RunResult where
  | completed (s : AcqState)
  | raised (s : AcqState)
  | running (s : AcqState)

/-- The worker and camera state of a run result. -/
def RunResult.state : RunResult → AcqState
  | RunResult.completed s => s
  | RunResult.raised s => s
  | RunResult.running s => s

/-- The status written at the end of the run, when the run reaches that point. -/
def RunResult.finalStatus : RunResult → Option Status
  | RunResult.completed s => some s.cam.m_status
  | RunResult.raised _ => none
  | RunResult.running _ => none

/-- The rest of a run from the loop state `s` at tick `i`: retrieval loop, then
the stopping phase. -/
def AcqThread.finish (env : RunEnv) (fuel i : Nat) (s : AcqState) : RunResult :=
  match AcqThread.retrieveLoop env.ticks fuel i s with
  | (s, false) => RunResult.running s
  | (s, true) =>
    match AcqThread.stopping env.stopRc env.stopBiasRc s with
    | Except.ok s => RunResult.completed s
    | Except.error s => RunResult.raised s

/-- One run of the worker: the body of the outer `while (true)` after the
worker has been woken with `m_acq_started` set and `m_quit` clear. -/
def AcqThread.run (env : RunEnv) (fuel : Nat) (s : AcqState) : RunResult :=
  AcqThread.finish env fuel 0 (AcqThread.starting env.startRc env.startBiasRc s)

/-! ## Observations on traces -/

/-- The frame indices published to the sink, in order. -/
def publishedFrames (trace : List Effect) : List Int :=
  trace.filterMap fun e =>
    match e with
    | Effect.newFrameReady n => some n
    | _ => none

/-- Number of `retrieveBuffer` calls in a trace. -/
def retrieveCalls (trace : List Effect) : Nat :=
  trace.countP fun e =>
    match e with
    | Effect.retrieveBuffer _ => true
    | _ => false

/-! ## Concrete inputs -/

/-- A camera as left by the constructor and `setNbFrames(4)`: four buffers,
frame limit 4, internal trigger, status `Ready`; the counters hold the values
of a previous run (5 frames, 3 skipped). -/
def usedCamera : Camera :=
  { m_bufferCount := 4
    m_timeout := 1000
    m_trig_mode := TrigMode.IntTrig
    m_nb_frames := 4
    m_framesPerTrigger := 0
    m_exp_time := 4 / 100
    m_frameTime := 1 / 100
    m_errCount := 3
    m_saved_frame_nb := 0
    m_biasVoltageRefreshInterval := 10000
    m_biasVoltageRefreshTime := 5000
    m_biasVoltageSettleTime := 2000
    m_quit := false
    m_acq_started := false
    m_thread_running := false
    m_finished_saving := false
    m_image_number := 5
    m_status := Status.Ready
    trace := [] }

/-- The same camera with both counters at 0. -/
def freshCamera : Camera :=
  { usedCamera with m_image_number := 0, m_errCount := 0 }

/-- The fresh camera in gated trigger mode without frame limit. -/
def gateCamera : Camera :=
  { freshCamera with m_trig_mode := TrigMode.ExtGate, m_nb_frames := 0 }

/-- A worker that has not run yet, woken by `startAcq()` on `cam`; the value
of the local `rc` is arbitrary before the first run. -/
def wokenWorker (cam : Camera) : AcqState :=
  { cam := cam.startAcq, rc := 0, trigger_failed := false, continue_acq := false }

/-- A tick in which no other thread interferes, the vendor returns `rc` and
the sink answers "continue". -/
def quietTick (rc : Int) : Tick :=
  { stopAcq := false, timerStatus := none, rc := rc, newFrameReady := true }

/-- An environment in which every vendor call succeeds except that
`startAcq` returns `startRc` and every `retrieveBuffer` returns `rc`. -/
def constEnv (startRc rc : Int) : RunEnv :=
  { startRc := startRc
    startBiasRc := NO_ERROR
    ticks := fun _ => quietTick rc
    stopRc := NO_ERROR
    stopBiasRc := NO_ERROR }

/-- Gate run: one frame is retrieved, then the gate times out (code 30). -/
def gateEnv : RunEnv :=
  { constEnv NO_ERROR 30 with
    ticks := fun i => if i = 0 then quietTick NO_ERROR else quietTick 30 }

/-- A tick of an undisturbed successful exposure: no stop request, the status
is left at `Exposure`, the retrieve succeeds and the sink answers "continue". -/
def Tick.undisturbedSuccess (t : Tick) : Prop :=
  t.stopAcq = false ∧ (t.timerStatus = none ∨ t.timerStatus = some Status.Exposure) ∧
    t.rc = NO_ERROR ∧ t.newFrameReady = true

instance (t : Tick) : Decidable t.undisturbedSuccess := by
  unfold Tick.undisturbedSuccess
  infer_instance

/-- The worker on the fresh camera after `startAcq()` and a successful
starting phase: status `Exposure`, no frame retrieved yet. -/
def exposingWorker : AcqState :=
  AcqThread.starting NO_ERROR NO_ERROR (wokenWorker freshCamera)

/-- The same worker after the bias-cycling thread has written status
`Paused`. -/
def pausedWorker : AcqState :=
  Tick.arrive
    { stopAcq := false, timerStatus := some Status.Paused, rc := NO_ERROR, newFrameReady := true }
    exposingWorker

/-- The used camera after a `prepareAcq()` whose bias-on call succeeds. -/
def preparedCamera : Camera :=
  match usedCamera.prepareAcq NO_ERROR with
  | Except.ok cam => cam
  | Except.error cam => cam

/-! ## Configuration accessors -/

/-- The kinds of hardware error raised by `THROW_HW_ERROR` in the source. -/
inductive HwError where
  | Error
  | NotSupported
  deriving DecidableEq

/-- Source `Camera::checkTrigMode`. -/
def Camera.checkTrigMode (trig_mode : TrigMode) : Bool :=
  match trig_mode with
  | TrigMode.IntTrig => true
  | TrigMode.ExtTrigSingle => true
  | TrigMode.ExtTrigMult => true
  | TrigMode.ExtGate => true
  | TrigMode.IntTrigMult => false
  | _ => false

/-- Source `Camera::setTrigMode`: the vendor trigger calls are made first; the
`default` branch of the switch raises `NotSupported` before the assignment of
`m_trig_mode`. -/
def Camera.setTrigMode (trig_mode : TrigMode) (cam : Camera) :
    Except (HwError × Camera) Camera :=
  let cam := cam.emit (Effect.setTriggerCountingMode (trig_mode != TrigMode.IntTrig))
  let cam := cam.emit Effect.disableTriggerGate
  let cam := cam.emit Effect.disableTriggerMode
  let r : Except (HwError × Camera) Camera :=
    match trig_mode with
    | TrigMode.IntTrig => Except.ok cam
    | TrigMode.ExtTrigSingle => Except.ok (cam.emit Effect.enableTriggerMode)
    | TrigMode.ExtTrigMult => Except.ok (cam.emit Effect.enableTriggerMode)
    | TrigMode.ExtGate => Except.ok (cam.emit Effect.enableTriggerGate)
    | TrigMode.IntTrigMult => Except.error (HwError.NotSupported, cam)
    | _ => Except.error (HwError.NotSupported, cam)
  match r with
  | Except.error e => Except.error e
  | Except.ok cam => Except.ok { cam with m_trig_mode := trig_mode }

/-- Source `Camera::getTrigMode`. -/
def Camera.getTrigMode (cam : Camera) : TrigMode :=
  cam.m_trig_mode

/-- The used camera in trigger mode `ExtTrigMult`. -/
def triggeredCamera : Camera :=
  { usedCamera with m_trig_mode := TrigMode.ExtTrigMult }

/-! ## Bias-cycling worker (`Camera::TimerThread::threadFunction`) -/

/-- The environment of one cycle of the bias-cycling worker: `started k` is the
value of `m_acq_started` the worker reads at its check number `k` (0 after the
interval sleep, then 1, 2, 3 in program order), as left by the other threads;
`biasOffRc` and `biasOnRc` are the codes of the vendor bias calls. -/
structure TimerEnv where
  started : Nat → Bool
  biasOffRc : Int
  biasOnRc : Int

/-- The writes of the other threads to `m_acq_started` before check `k`. -/
def TimerEnv.observe (env : TimerEnv) (k : Nat) (cam : Camera) : Camera :=
  { cam with m_acq_started := env.started k }

/-- One cycle of the bias-cycling worker (source lines 717-732): the body of
the outer loop after the worker has been woken with `m_acq_started` set and
`m_quit` clear. Each `if (m_acq_started)` without braces guards the single
statement that follows it: the sleep of `m_biasVoltageSettleTime` and the
trace message after the last check are not guarded. The bias calls raise a
hardware error when the vendor call fails. -/
def TimerThread.cycle (env : TimerEnv) (cam : Camera) : Except Camera Camera :=
  let cam := cam.emit (Effect.sleep_for cam.m_biasVoltageRefreshInterval)
  let cam := env.observe 0 cam
  if cam.m_acq_started then
    let cam := cam.setStatus Status.Paused
    match cam.setHvBiasOff env.biasOffRc with
    | Except.error cam => Except.error cam
    | Except.ok cam =>
      let cam := env.observe 1 cam
      let cam :=
        if cam.m_acq_started then cam.emit (Effect.sleep_for cam.m_biasVoltageRefreshTime)
        else cam
      let cam := env.observe 2 cam
      let r := if cam.m_acq_started then cam.setHvBiasOn env.biasOnRc else Except.ok cam
      match r with
      | Except.error cam => Except.error cam
      | Except.ok cam =>
        let cam := cam.emit (Effect.sleep_for cam.m_biasVoltageSettleTime)
        let cam := env.observe 3 cam
        let cam := if cam.m_acq_started then cam.setStatus Status.Exposure else cam
        Except.ok cam
  else
    cam.setHvBiasOff env.biasOffRc

/-- A cycle in which acquisition is active after the interval sleep and has
stopped at every later check; the vendor bias calls succeed. -/
def stoppedMidCycle : TimerEnv :=
  { started := fun k => decide (k = 0), biasOffRc := NO_ERROR, biasOnRc := NO_ERROR }

/-- The camera of a bias cycle result, whether the cycle returned or raised. -/
def cycleCamera (r : Except Camera Camera) : Camera :=
  match r with
  | Except.ok cam => cam
  | Except.error cam => cam

/-! ## Outer loop of the acquisition worker -/

/-- One evaluation of the idle-wait condition of the acquisition worker and
the run that follows it: `wake` is what the controlling thread has done to the
camera since the worker last looked at it (`prepareAcq()`, `startAcq()`, the
destructor setting `m_quit`, ...), `env` and `fuel` are the environment and
the observation length of the run that starts when `m_acq_started` is set. -/
structure Session where
  wake : Camera → Camera
  env : RunEnv
  fuel : Nat

/-- How far the worker thread got: it returned because `m_quit` was set, it
is in its idle wait at the end of the observed sessions, a hardware error left
`threadFunction`, or a retrieval loop was still iterating when its fuel ran
out. -/
inductive WorkerResult where
  | terminated (s : AcqState)
  | waiting (s : AcqState)
  | raised (s : AcqState)
  | running (s : AcqState)

/-- The worker and camera state of a worker result. -/
def WorkerResult.state : WorkerResult → AcqState
  | WorkerResult.terminated s => s
  | WorkerResult.waiting s => s
  | WorkerResult.raised s => s
  | WorkerResult.running s => s

/-- The outer `while (true)` of `Camera::AcqThread::threadFunction` (source
lines 593-683): idle wait while neither `m_acq_started` nor `m_quit` is set,
return when `m_quit` is set, otherwise one run. The locals `rc` and
`trigger_failed` of the state are not written between two runs. -/
def AcqThread.outerLoop : List Session → AcqState → WorkerResult
  | [], s => WorkerResult.waiting s
  | ses :: rest, s =>
    let s := { s with cam := ses.wake s.cam }
    if !s.cam.m_acq_started && !s.cam.m_quit then
      AcqThread.outerLoop rest { s with cam := { s.cam with m_thread_running := false } }
    else if s.cam.m_quit then WorkerResult.terminated s
    else
      match AcqThread.run ses.env ses.fuel s with
      | RunResult.completed s => AcqThread.outerLoop rest s
      | RunResult.raised s => WorkerResult.raised s
      | RunResult.running s => WorkerResult.running s

/-- Source `Camera::AcqThread::threadFunction`: `trigger_failed` is initialised
to `false` once, before the outer loop; `rc` is declared without initialiser
(`rc0` is the value it happens to hold). -/
def AcqThread.threadFunction (rc0 : Int) (sessions : List Session) (cam : Camera) :
    WorkerResult :=
  AcqThread.outerLoop sessions
    { cam := cam, rc := rc0, trigger_failed := false, continue_acq := false }

/-- The codes returned by the `retrieveBuffer` calls that the retrieval loop
makes, in order (same recursion as `AcqThread.retrieveLoop`). -/
def AcqThread.retrieveCodes (ticks : Nat → Tick) : Nat → Nat → AcqState → List Int
  | 0, _, _ => []
  | fuel + 1, i, s =>
    let s := (ticks i).arrive s
    if s.loopCond then
      match AcqThread.loopBody (ticks i) s with
      | (_, true) => [(ticks i).rc]
      | (s, false) => (ticks i).rc :: AcqThread.retrieveCodes ticks fuel (i + 1) s
    else []

/-- Specification side of C18, written from its words: the most recent code
held in `rc` at the end of the retrieval phase is the result of the last
retrieve call if at least one was made (rewritten to success for a gate
timeout, code 30 in mode `ExtGate`, after at least one frame) and the vendor
start result otherwise. -/
def lastSeenCode (startRc : Int) (codes : List Int) (mode : TrigMode) (image_number : Int) :
    Int :=
  match codes.getLast? with
  | none => startRc
  | some c =>
    if c = 30 ∧ mode = TrigMode.ExtGate ∧ 0 < image_number then NO_ERROR else c

/-- A run in which the first retrieve returns the skippable code 27 and the
controlling thread then calls `stopAcq()`. -/
def skipThenStopEnv : RunEnv :=
  { constEnv NO_ERROR 27 with
    ticks := fun i =>
      if i = 0 then quietTick 27
      else { stopAcq := true, timerStatus := none, rc := NO_ERROR, newFrameReady := true } }

/-- The worker after a run on the gate camera that ended on code 30 with no
frame, woken again by `startAcq()` on the fresh camera (frame limit 4). -/
def wokenAfterTriggerFailure : AcqState :=
  { (AcqThread.finish (constEnv NO_ERROR 30) 1 0
      (AcqThread.starting NO_ERROR NO_ERROR (wokenWorker gateCamera))).state with
    cam := freshCamera.startAcq }

/-- The state of a run when its retrieval loop is left (or, when the fuel runs
out before, the state reached): the input of the stopping phase. -/
def AcqThread.loopExit (env : RunEnv) (fuel : Nat) (s : AcqState) : AcqState :=
  (AcqThread.retrieveLoop env.ticks fuel 0 (AcqThread.starting env.startRc env.startBiasRc s)).1

/-! ## Auxiliary facts -/

theorem publishedFrames_append (xs ys : List Effect) :
    publishedFrames (xs ++ ys) = publishedFrames xs ++ publishedFrames ys := by
  simp [publishedFrames, List.filterMap_append]

theorem interfere_keeps (t : Tick) (cam : Camera) :
    (t.interfere cam).m_nb_frames = cam.m_nb_frames ∧
      (t.interfere cam).m_image_number = cam.m_image_number ∧
      (t.interfere cam).m_errCount = cam.m_errCount ∧
      (t.interfere cam).m_trig_mode = cam.m_trig_mode ∧
      (t.interfere cam).m_timeout = cam.m_timeout ∧
      (t.interfere cam).trace = cam.trace := by
  unfold Tick.interfere Camera.stopAcq
  cases t.timerStatus <;> cases t.stopAcq <;> cases cam.m_acq_started <;> simp

theorem arrive_keeps (t : Tick) (s : AcqState) :
    (t.arrive s).cam.m_nb_frames = s.cam.m_nb_frames ∧
      (t.arrive s).cam.m_image_number = s.cam.m_image_number ∧
      (t.arrive s).cam.m_errCount = s.cam.m_errCount ∧
      (t.arrive s).cam.m_trig_mode = s.cam.m_trig_mode ∧
      (t.arrive s).cam.m_timeout = s.cam.m_timeout ∧
      (t.arrive s).cam.trace = s.cam.trace :=
  interfere_keeps t s.cam

theorem arrive_locals (t : Tick) (s : AcqState) :
    (t.arrive s).rc = s.rc ∧ (t.arrive s).trigger_failed = s.trigger_failed ∧
      (t.arrive s).continue_acq = s.continue_acq :=
  ⟨rfl, rfl, rfl⟩

theorem loopBody_frames (t : Tick) (s : AcqState) :
    (AcqThread.loopBody t s).1.cam.m_nb_frames = s.cam.m_nb_frames ∧
      (((AcqThread.loopBody t s).1.cam.m_image_number = s.cam.m_image_number ∧
          publishedFrames (AcqThread.loopBody t s).1.cam.trace = publishedFrames s.cam.trace) ∨
        ((AcqThread.loopBody t s).1.cam.m_image_number = s.cam.m_image_number + 1 ∧
          publishedFrames (AcqThread.loopBody t s).1.cam.trace =
            publishedFrames s.cam.trace ++ [s.cam.m_image_number])) := by
  unfold AcqThread.loopBody
  simp only [Camera.emit, Camera.getStatus]
  split_ifs <;> simp [publishedFrames_append] <;> simp [publishedFrames]

theorem retrieveLoop_succ (ticks : Nat → Tick) (fuel i : Nat) (s : AcqState) :
    AcqThread.retrieveLoop ticks (fuel + 1) i s =
      if ((ticks i).arrive s).loopCond then
        if (AcqThread.loopBody (ticks i) ((ticks i).arrive s)).2 then
          ((AcqThread.loopBody (ticks i) ((ticks i).arrive s)).1, true)
        else
          AcqThread.retrieveLoop ticks fuel (i + 1)
            (AcqThread.loopBody (ticks i) ((ticks i).arrive s)).1
      else ((ticks i).arrive s, true) := by
  rw [AcqThread.retrieveLoop]
  split_ifs with h1 h2
  · rcases hb : AcqThread.loopBody (ticks i) ((ticks i).arrive s) with ⟨s', b⟩
    rw [hb] at h2
    simp only at h2
    subst h2
    rfl
  · rcases hb : AcqThread.loopBody (ticks i) ((ticks i).arrive s) with ⟨s', b⟩
    rw [hb] at h2
    simp only [Bool.not_eq_true] at h2
    subst h2
    rfl
  · rfl

theorem loopCond_iff (s : AcqState) :
    s.loopCond = true ↔
      s.continue_acq = true ∧ s.cam.m_acq_started = true ∧
        (s.cam.m_nb_frames = 0 ∨ s.cam.m_image_number < s.cam.m_nb_frames) := by
  simp [AcqState.loopCond, and_assoc]

theorem retrieveLoop_frames (ticks : Nat → Tick) (N : Int) :
    ∀ (fuel i : Nat) (s : AcqState), s.cam.m_nb_frames = N → 0 < N → s.cam.m_image_number ≤ N →
      (AcqThread.retrieveLoop ticks fuel i s).1.cam.m_image_number ≤ N ∧
        ((publishedFrames (AcqThread.retrieveLoop ticks fuel i s).1.cam.trace).length : Int)
            - (AcqThread.retrieveLoop ticks fuel i s).1.cam.m_image_number
          = ((publishedFrames s.cam.trace).length : Int) - s.cam.m_image_number := by
  intro fuel
  induction fuel with
  | zero =>
    intro i s _ _ hle
    exact ⟨hle, rfl⟩
  | succ fuel ih =>
    intro i s hN hpos hle
    obtain ⟨k1, k2, -, -, -, k6⟩ := arrive_keeps (ticks i) s
    obtain ⟨b1, b2⟩ := loopBody_frames (ticks i) ((ticks i).arrive s)
    rw [k1, hN] at b1
    rw [k2, k6] at b2
    rw [retrieveLoop_succ]
    split_ifs with h1 h2
    · rw [loopCond_iff, k1, k2, hN] at h1
      have hlt : s.cam.m_image_number < N := by omega
      rcases b2 with ⟨e1, e2⟩ | ⟨e1, e2⟩
      · rw [e1, e2]; exact ⟨hle, rfl⟩
      · rw [e1, e2, List.length_append, List.length_singleton]
        exact ⟨by omega, by push_cast; ring⟩
    · rw [loopCond_iff, k1, k2, hN] at h1
      have hlt : s.cam.m_image_number < N := by omega
      have hle2 : (AcqThread.loopBody (ticks i) ((ticks i).arrive s)).1.cam.m_image_number ≤ N := by
        rcases b2 with ⟨e1, _⟩ | ⟨e1, _⟩ <;> omega
      obtain ⟨r1, r2⟩ := ih (i + 1) _ b1 hpos hle2
      refine ⟨r1, ?_⟩
      rw [r2]
      rcases b2 with ⟨e1, e2⟩ | ⟨e1, e2⟩
      · rw [e1, e2]
      · rw [e1, e2, List.length_append, List.length_singleton]
        push_cast; ring
    · exact ⟨by rw [k2]; exact hle, by rw [k2, k6]⟩

theorem starting_eq (startRc biasRc : Int) (s : AcqState) :
    AcqThread.starting startRc biasRc s =
      { cam := { s.cam with
                  m_finished_saving := false
                  m_thread_running := true
                  m_status := Status.Exposure
                  trace := s.cam.trace ++
                    ([Effect.setStatus Status.Exposure, Effect.futureGet, Effect.startAcq] ++
                      ((if startRc ≠ NO_ERROR then [Effect.setHvBiasOn false] else []) ++
                        [Effect.getNbBuffers])) }
        rc := startRc
        trigger_failed := s.trigger_failed
        continue_acq := true } := by
  unfold AcqThread.starting Camera.setHvBiasOff Camera.setStatus Camera.emit
  by_cases h1 : startRc = NO_ERROR <;> by_cases h2 : biasRc = NO_ERROR <;> simp [h1, h2]

theorem starting_fields (startRc biasRc : Int) (s : AcqState) :
    (AcqThread.starting startRc biasRc s).rc = startRc ∧
      (AcqThread.starting startRc biasRc s).trigger_failed = s.trigger_failed ∧
      (AcqThread.starting startRc biasRc s).continue_acq = true ∧
      (AcqThread.starting startRc biasRc s).cam.m_nb_frames = s.cam.m_nb_frames ∧
      (AcqThread.starting startRc biasRc s).cam.m_image_number = s.cam.m_image_number ∧
      (AcqThread.starting startRc biasRc s).cam.m_errCount = s.cam.m_errCount ∧
      (AcqThread.starting startRc biasRc s).cam.m_acq_started = s.cam.m_acq_started ∧
      (AcqThread.starting startRc biasRc s).cam.m_status = Status.Exposure := by
  rw [starting_eq]
  exact ⟨rfl, rfl, rfl, rfl, rfl, rfl, rfl, rfl⟩

theorem starting_frames (startRc biasRc : Int) (s : AcqState) :
    publishedFrames (AcqThread.starting startRc biasRc s).cam.trace =
      publishedFrames s.cam.trace := by
  rw [starting_eq]
  by_cases h : startRc = NO_ERROR <;> simp [h, publishedFrames_append] <;>
    simp [publishedFrames]

theorem stopping_eq (stopRc biasRc : Int) (s : AcqState) :
    AcqThread.stopping stopRc biasRc s =
      if s.trigger_failed = true then
        Except.ok { s with cam := { s.cam with
          m_acq_started := false
          m_status := if s.rc = NO_ERROR ∧ stopRc = NO_ERROR then Status.Ready else Status.Fault
          trace := s.cam.trace ++ [Effect.stopAcq,
            Effect.setStatus
              (if s.rc = NO_ERROR ∧ stopRc = NO_ERROR then Status.Ready else Status.Fault)] } }
      else if biasRc ≠ NO_ERROR then
        Except.error { s with cam := { s.cam with
          m_acq_started := false
          m_status := Status.Readout
          trace := s.cam.trace ++ [Effect.stopAcq, Effect.setStatus Status.Readout,
            Effect.setHvBiasOn false] } }
      else
        Except.ok { s with cam := { s.cam with
          m_acq_started := false
          m_status := if s.rc = NO_ERROR ∧ stopRc = NO_ERROR then Status.Ready else Status.Fault
          trace := s.cam.trace ++ [Effect.stopAcq, Effect.setStatus Status.Readout,
            Effect.setHvBiasOn false,
            Effect.setStatus
              (if s.rc = NO_ERROR ∧ stopRc = NO_ERROR then Status.Ready else Status.Fault)] } } := by
  rcases s with ⟨cam, rc, tf, ca⟩
  unfold AcqThread.stopping Camera.setHvBiasOff Camera.setStatus Camera.emit
  cases tf <;> by_cases h2 : biasRc = NO_ERROR <;>
    by_cases h3 : rc = NO_ERROR ∧ stopRc = NO_ERROR <;> simp [h2, h3]

theorem stopping_frames (stopRc biasRc : Int) (s : AcqState) :
    ∀ r, (AcqThread.stopping stopRc biasRc s = Except.ok r ∨
        AcqThread.stopping stopRc biasRc s = Except.error r) →
      r.cam.m_image_number = s.cam.m_image_number ∧ r.cam.m_errCount = s.cam.m_errCount ∧
        publishedFrames r.cam.trace = publishedFrames s.cam.trace := by
  intro r hr
  rw [stopping_eq] at hr
  split_ifs at hr with h1 h2 <;> rcases hr with hr | hr <;> cases hr <;>
    simp [publishedFrames_append] <;> simp [publishedFrames]

theorem finish_frames (env : RunEnv) (fuel i : Nat) (s : AcqState) :
    (AcqThread.finish env fuel i s).state.cam.m_image_number =
        (AcqThread.retrieveLoop env.ticks fuel i s).1.cam.m_image_number ∧
      (AcqThread.finish env fuel i s).state.cam.m_errCount =
        (AcqThread.retrieveLoop env.ticks fuel i s).1.cam.m_errCount ∧
      publishedFrames (AcqThread.finish env fuel i s).state.cam.trace =
        publishedFrames (AcqThread.retrieveLoop env.ticks fuel i s).1.cam.trace := by
  unfold AcqThread.finish
  rcases AcqThread.retrieveLoop env.ticks fuel i s with ⟨r, b⟩
  cases b
  · exact ⟨rfl, rfl, rfl⟩
  · dsimp only
    rcases hs : AcqThread.stopping env.stopRc env.stopBiasRc r with e | e
    · exact stopping_frames env.stopRc env.stopBiasRc r e (Or.inr hs)
    · exact stopping_frames env.stopRc env.stopBiasRc r e (Or.inl hs)

theorem loopBody_transient (t : Tick) (s : AcqState) (h : t.rc = 27 ∨ t.rc = 2818) :
    AcqThread.loopBody t s =
      ({ s with
          cam := { s.cam with
            m_errCount := s.cam.m_errCount + 1
            trace := s.cam.trace ++
              [Effect.getFrameBufferPtr s.cam.m_image_number,
                Effect.retrieveBuffer s.cam.m_timeout] }
          rc := t.rc }, false) := by
  unfold AcqThread.loopBody Camera.emit
  rcases h with h | h <;> simp [h, NO_ERROR]

theorem arrive_good (t : Tick) (s : AcqState) (hg : t.undisturbedSuccess)
    (hst : s.cam.m_status = Status.Exposure) :
    t.arrive s = s := by
  rcases s with ⟨cam, rc, tf, ca⟩
  rcases cam with ⟨a1, a2, a3, a4, a5, a6, a7, a8, a9, a10, a11, a12, a13, a14, a15, a16, a17, a18, a19⟩
  obtain ⟨g1, g2, -, -⟩ := hg
  simp only at hst
  subst hst
  unfold Tick.arrive Tick.interfere
  rcases g2 with g2 | g2 <;> simp [g1, g2]

theorem loopBody_good (t : Tick) (s : AcqState) (hg : t.undisturbedSuccess)
    (hst : s.cam.m_status = Status.Exposure) :
    (AcqThread.loopBody t s).2 = false ∧
      (AcqThread.loopBody t s).1.rc = NO_ERROR ∧
      (AcqThread.loopBody t s).1.trigger_failed = s.trigger_failed ∧
      (AcqThread.loopBody t s).1.continue_acq = true ∧
      (AcqThread.loopBody t s).1.cam.m_nb_frames = s.cam.m_nb_frames ∧
      (AcqThread.loopBody t s).1.cam.m_image_number = s.cam.m_image_number + 1 ∧
      (AcqThread.loopBody t s).1.cam.m_errCount = s.cam.m_errCount ∧
      (AcqThread.loopBody t s).1.cam.m_acq_started = s.cam.m_acq_started ∧
      (AcqThread.loopBody t s).1.cam.m_status = s.cam.m_status ∧
      publishedFrames (AcqThread.loopBody t s).1.cam.trace =
        publishedFrames s.cam.trace ++ [s.cam.m_image_number] := by
  obtain ⟨-, -, g3, g4⟩ := hg
  unfold AcqThread.loopBody Camera.emit Camera.getStatus
  simp [g3, g4, hst, publishedFrames_append]
  simp [publishedFrames]

theorem range_succ_map_add (a : Int) (m : Nat) :
    (List.range (m + 1)).map (fun j : Nat => a + (j : Int)) =
      a :: (List.range m).map (fun j : Nat => (a + 1) + (j : Int)) := by
  rw [List.range_succ_eq_map, List.map_cons, List.map_map]
  simp only [Nat.cast_zero, add_zero, List.cons.injEq, true_and]
  apply List.map_congr_left
  intro j _
  simp only [Function.comp_apply, Nat.cast_succ]
  ring

theorem retrieveLoop_good (ticks : Nat → Tick) :
    ∀ (m i fuel : Nat) (s : AcqState), m + 1 ≤ fuel →
      s.cam.m_nb_frames = s.cam.m_image_number + m → 0 < s.cam.m_nb_frames →
      s.continue_acq = true → s.cam.m_acq_started = true →
      s.cam.m_status = Status.Exposure → (∀ j, j < m → (ticks (i + j)).undisturbedSuccess) →
      (AcqThread.retrieveLoop ticks fuel i s).2 = true ∧
        (AcqThread.retrieveLoop ticks fuel i s).1.rc = (if m = 0 then s.rc else NO_ERROR) ∧
        (AcqThread.retrieveLoop ticks fuel i s).1.trigger_failed = s.trigger_failed ∧
        (AcqThread.retrieveLoop ticks fuel i s).1.cam.m_image_number = s.cam.m_nb_frames ∧
        (AcqThread.retrieveLoop ticks fuel i s).1.cam.m_errCount = s.cam.m_errCount ∧
        publishedFrames (AcqThread.retrieveLoop ticks fuel i s).1.cam.trace =
          publishedFrames s.cam.trace ++
            (List.range m).map (fun j : Nat => s.cam.m_image_number + (j : Int)) := by
  intro m
  induction m with
  | zero =>
    intro i fuel s hfuel hN hpos hca hacq hst hgood
    obtain ⟨fuel, rfl⟩ : ∃ f, fuel = f + 1 := ⟨fuel - 1, by omega⟩
    obtain ⟨k1, k2, k3, -, -, k6⟩ := arrive_keeps (ticks i) s
    have hc : ((ticks i).arrive s).loopCond = false := by
      rw [Bool.eq_false_iff, Ne, loopCond_iff, k1, k2]
      intro h
      omega
    rw [retrieveLoop_succ, hc]
    simp only [Bool.false_eq_true, if_false, if_true]
    refine ⟨trivial, rfl, rfl, ?_, k3, ?_⟩
    · rw [k2]; omega
    · rw [k6]; simp
  | succ m ih =>
    intro i fuel s hfuel hN hpos hca hacq hst hgood
    obtain ⟨fuel, rfl⟩ : ∃ f, fuel = f + 1 := ⟨fuel - 1, by omega⟩
    have hg : (ticks i).undisturbedSuccess := by simpa using hgood 0 (by omega)
    have hc : s.loopCond = true := by
      rw [loopCond_iff]
      refine ⟨hca, hacq, Or.inr ?_⟩
      push_cast at hN
      omega
    obtain ⟨b1, b2, b3, b4, b5, b6, b7, b8, b9, b10⟩ := loopBody_good _ s hg hst
    rw [retrieveLoop_succ, arrive_good _ _ hg hst, hc, b1]
    simp only [if_true, Bool.false_eq_true, if_false]
    obtain ⟨r1, r2, r3, r4, r5, r6⟩ := ih (i + 1) fuel (AcqThread.loopBody (ticks i) s).1
      (by omega) (by rw [b5, b6]; push_cast at hN; omega) (by rw [b5]; exact hpos) b4
      (by rw [b8]; exact hacq) (by rw [b9]; exact hst)
      (fun j hj => by
        have := hgood (j + 1) (by omega)
        rwa [show i + (j + 1) = i + 1 + j by omega] at this)
    refine ⟨r1, ?_, ?_, ?_, ?_, ?_⟩
    · rw [r2, b2]; simp
    · rw [r3, b3]
    · rw [r4, b5]
    · rw [r5, b7]
    · rw [r6, b10, b6, range_succ_map_add]
      simp

theorem finish_eq (env : RunEnv) (fuel i : Nat) (s : AcqState) :
    AcqThread.finish env fuel i s =
      if (AcqThread.retrieveLoop env.ticks fuel i s).2 = true then
        match AcqThread.stopping env.stopRc env.stopBiasRc
            (AcqThread.retrieveLoop env.ticks fuel i s).1 with
        | Except.ok s => RunResult.completed s
        | Except.error s => RunResult.raised s
      else RunResult.running (AcqThread.retrieveLoop env.ticks fuel i s).1 := by
  unfold AcqThread.finish
  rcases AcqThread.retrieveLoop env.ticks fuel i s with ⟨r, b⟩
  cases b <;> rfl

theorem finish_exit_completed (env : RunEnv) (fuel i : Nat) (s : AcqState)
    (hexit : (AcqThread.retrieveLoop env.ticks fuel i s).2 = true)
    (hbias : (AcqThread.retrieveLoop env.ticks fuel i s).1.trigger_failed = true ∨
      env.stopBiasRc = NO_ERROR) :
    (AcqThread.finish env fuel i s).finalStatus =
        some (if (AcqThread.retrieveLoop env.ticks fuel i s).1.rc = NO_ERROR ∧
            env.stopRc = NO_ERROR then Status.Ready else Status.Fault) ∧
      (AcqThread.finish env fuel i s).state.cam.m_acq_started = false ∧
      (AcqThread.finish env fuel i s).state.trigger_failed =
        (AcqThread.retrieveLoop env.ticks fuel i s).1.trigger_failed ∧
      (AcqThread.finish env fuel i s).state.cam.trace =
        (AcqThread.retrieveLoop env.ticks fuel i s).1.cam.trace ++
          (Effect.stopAcq ::
            ((if (AcqThread.retrieveLoop env.ticks fuel i s).1.trigger_failed = true then []
              else [Effect.setStatus Status.Readout, Effect.setHvBiasOn false]) ++
            [Effect.setStatus
              (if (AcqThread.retrieveLoop env.ticks fuel i s).1.rc = NO_ERROR ∧
                env.stopRc = NO_ERROR then Status.Ready else Status.Fault)])) := by
  rw [finish_eq, if_pos hexit, stopping_eq]
  generalize (AcqThread.retrieveLoop env.ticks fuel i s).1 = r at hbias ⊢
  by_cases htf : r.trigger_failed = true
  · simp [htf, RunResult.finalStatus, RunResult.state]
  · have hb : env.stopBiasRc = NO_ERROR := by
      rcases hbias with h | h
      · exact absurd h htf
      · exact h
    simp [htf, hb, RunResult.finalStatus, RunResult.state]

theorem finalStatus_some (env : RunEnv) (fuel i : Nat) (s : AcqState) (st : Status)
    (h : (AcqThread.finish env fuel i s).finalStatus = some st) :
    (AcqThread.retrieveLoop env.ticks fuel i s).2 = true ∧
      st = (if (AcqThread.retrieveLoop env.ticks fuel i s).1.rc = NO_ERROR ∧
          env.stopRc = NO_ERROR then Status.Ready else Status.Fault) := by
  rw [finish_eq] at h
  by_cases hexit : (AcqThread.retrieveLoop env.ticks fuel i s).2 = true
  · rw [if_pos hexit, stopping_eq] at h
    refine ⟨hexit, ?_⟩
    generalize (AcqThread.retrieveLoop env.ticks fuel i s).1 = r at h ⊢
    by_cases htf : r.trigger_failed = true
    · simp [htf, RunResult.finalStatus] at h
      exact h.symm
    · by_cases hb : env.stopBiasRc = NO_ERROR
      · simp [htf, hb, RunResult.finalStatus] at h
        exact h.symm
      · simp [htf, hb, RunResult.finalStatus] at h
  · rw [if_neg hexit] at h
    simp [RunResult.finalStatus] at h

theorem loopBody_rc_success (t : Tick) (s : AcqState) (h : t.rc = NO_ERROR) :
    (AcqThread.loopBody t s).1.rc = NO_ERROR := by
  unfold AcqThread.loopBody
  simp only [h]
  split_ifs <;> rfl

theorem retrieveLoop_rc_success (ticks : Nat → Tick) (hticks : ∀ i, (ticks i).rc = NO_ERROR) :
    ∀ (fuel i : Nat) (s : AcqState), s.rc = NO_ERROR →
      (AcqThread.retrieveLoop ticks fuel i s).1.rc = NO_ERROR := by
  intro fuel
  induction fuel with
  | zero => intro i s h; exact h
  | succ fuel ih =>
    intro i s h
    rw [retrieveLoop_succ]
    split_ifs
    · exact loopBody_rc_success _ _ (hticks i)
    · exact ih _ _ (loopBody_rc_success _ _ (hticks i))
    · exact h

theorem retrieveLoop_break (ticks : Nat → Tick) (fuel i : Nat) (s : AcqState)
    (hcond : ((ticks i).arrive s).loopCond = true)
    (hbreak : (AcqThread.loopBody (ticks i) ((ticks i).arrive s)).2 = true) :
    AcqThread.retrieveLoop ticks (fuel + 1) i s =
      ((AcqThread.loopBody (ticks i) ((ticks i).arrive s)).1, true) := by
  rw [retrieveLoop_succ, if_pos hcond, if_pos hbreak]

theorem loopBody_gate_timeout_first (t : Tick) (s : AcqState) (hrc : t.rc = 30)
    (hmode : s.cam.m_trig_mode = TrigMode.ExtGate) (himg : s.cam.m_image_number = 0) :
    AcqThread.loopBody t s =
      ({ s with
          cam := { s.cam with
            trace := s.cam.trace ++
              [Effect.getFrameBufferPtr 0, Effect.retrieveBuffer s.cam.m_timeout] }
          rc := 30
          trigger_failed := true }, true) := by
  unfold AcqThread.loopBody Camera.emit
  simp [hrc, hmode, himg, NO_ERROR]

theorem loopBody_gate_timeout_later (t : Tick) (s : AcqState) (hrc : t.rc = 30)
    (hmode : s.cam.m_trig_mode = TrigMode.ExtGate) (himg : 0 < s.cam.m_image_number) :
    AcqThread.loopBody t s =
      ({ s with
          cam := { s.cam with
            trace := s.cam.trace ++
              [Effect.getFrameBufferPtr s.cam.m_image_number,
                Effect.retrieveBuffer s.cam.m_timeout] }
          rc := NO_ERROR }, true) := by
  have h0 : ¬ s.cam.m_image_number = 0 := by omega
  unfold AcqThread.loopBody Camera.emit
  simp [hrc, hmode, himg, h0, NO_ERROR]

theorem loopBody_hard_error (t : Tick) (s : AcqState) (h0 : t.rc ≠ NO_ERROR)
    (h27 : t.rc ≠ 27) (h2818 : t.rc ≠ 2818)
    (h30 : ¬ (t.rc = 30 ∧ s.cam.m_trig_mode = TrigMode.ExtGate)) :
    AcqThread.loopBody t s =
      ({ s with
          cam := { s.cam with
            trace := s.cam.trace ++
              [Effect.getFrameBufferPtr s.cam.m_image_number,
                Effect.retrieveBuffer s.cam.m_timeout] }
          rc := t.rc }, true) := by
  have a1 : ¬ (t.rc = 30 ∧ s.cam.m_trig_mode = TrigMode.ExtGate ∧ s.cam.m_image_number = 0) :=
    fun c => h30 ⟨c.1, c.2.1⟩
  have a2 : ¬ (t.rc = 30 ∧ s.cam.m_trig_mode = TrigMode.ExtGate ∧ s.cam.m_image_number > 0) :=
    fun c => h30 ⟨c.1, c.2.1⟩
  unfold AcqThread.loopBody Camera.emit
  simp only [h0, h27, h2818, a1, a2, if_false, or_self]
  simp

theorem prepareAcq_image_number (biasRc : Int) (cam cam' : Camera)
    (h : cam.prepareAcq biasRc = Except.ok cam') : cam'.m_image_number = 0 := by
  unfold Camera.prepareAcq Camera.setHvBiasOn Camera.emit at h
  by_cases hb : biasRc = NO_ERROR
  · simp only [hb, ne_eq, not_true_eq_false, if_false] at h
    split_ifs at h <;> cases h <;> rfl
  · simp [hb] at h

/-! ## Frame limit (C1) -/

/-- C1. Frame limit: with a frame limit `N > 0` and `m_image_number = 0` at
the start, whatever the vendor codes, the sink answers and the writes of the
other threads are, and however long the retrieval loop is observed, the number
of `newFrameReady` calls made since the start is at most `N` and
`m_image_number` is at most `N`: both for the retrieval loop entered in any
loop state (so before the status `Readout` is written) and for the complete
run of the worker. -/
theorem frame_limit_bounds_published (env : RunEnv) (fuel i : Nat) (s : AcqState) (N : Int)
    (hN : 0 < N) (hlimit : s.cam.m_nb_frames = N) (hzero : s.cam.m_image_number = 0) :
    (((publishedFrames (AcqThread.retrieveLoop env.ticks fuel i s).1.cam.trace).length : Int)
          ≤ (publishedFrames s.cam.trace).length + N ∧
        (AcqThread.retrieveLoop env.ticks fuel i s).1.cam.m_image_number ≤ N) ∧
      (((publishedFrames (AcqThread.run env fuel s).state.cam.trace).length : Int)
          ≤ (publishedFrames s.cam.trace).length + N ∧
        (AcqThread.run env fuel s).state.cam.m_image_number ≤ N) := by
  constructor
  · obtain ⟨h1, h2⟩ := retrieveLoop_frames env.ticks N fuel i s hlimit hN (by omega)
    exact ⟨by omega, h1⟩
  · obtain ⟨f1, -, f3⟩ :=
      finish_frames env fuel 0 (AcqThread.starting env.startRc env.startBiasRc s)
    obtain ⟨-, -, -, w4, w5, -, -, -⟩ := starting_fields env.startRc env.startBiasRc s
    have hl : (AcqThread.starting env.startRc env.startBiasRc s).cam.m_nb_frames = N := by
      rw [w4]; exact hlimit
    have hi : (AcqThread.starting env.startRc env.startBiasRc s).cam.m_image_number = 0 := by
      rw [w5]; exact hzero
    obtain ⟨h1, h2⟩ := retrieveLoop_frames env.ticks N fuel 0
      (AcqThread.starting env.startRc env.startBiasRc s) hl hN (by omega)
    rw [starting_frames, hi] at h2
    unfold AcqThread.run
    rw [f1, f3]
    exact ⟨by omega, h1⟩

/-- Witness for C1: the fresh camera with frame limit 4, started, in an
environment where every retrieve succeeds, observed for 10 loop evaluations. -/
theorem frame_limit_bounds_published_witness :
    (((publishedFrames (AcqThread.retrieveLoop (constEnv NO_ERROR NO_ERROR).ticks 10 0
              (wokenWorker freshCamera)).1.cam.trace).length : Int)
          ≤ (publishedFrames (wokenWorker freshCamera).cam.trace).length + 4 ∧
        (AcqThread.retrieveLoop (constEnv NO_ERROR NO_ERROR).ticks 10 0
            (wokenWorker freshCamera)).1.cam.m_image_number ≤ 4) ∧
      (((publishedFrames (AcqThread.run (constEnv NO_ERROR NO_ERROR) 10
              (wokenWorker freshCamera)).state.cam.trace).length : Int)
          ≤ (publishedFrames (wokenWorker freshCamera).cam.trace).length + 4 ∧
        (AcqThread.run (constEnv NO_ERROR NO_ERROR) 10
            (wokenWorker freshCamera)).state.cam.m_image_number ≤ 4) :=
  frame_limit_bounds_published (constEnv NO_ERROR NO_ERROR) 10 0 (wokenWorker freshCamera) 4
    (by decide) rfl rfl

/-! ## Transient errors (C2) -/

/-- C2. Transient errors: in every loop state, a retrieve call that returns
27 or 2818 does not leave the loop (no `break`, `continue_acq` unchanged),
adds exactly 1 to `m_errCount`, leaves `m_image_number` unchanged and
publishes no frame; after a second such call in the next iteration (whatever
the other threads wrote in between) `m_errCount` has grown by exactly 2 and
`m_image_number` is still unchanged. -/
theorem transient_code_skips_frame (t1 t2 : Tick) (s : AcqState)
    (h1 : t1.rc = 27 ∨ t1.rc = 2818) (h2 : t2.rc = 27 ∨ t2.rc = 2818) :
    ((AcqThread.loopBody t1 s).2 = false ∧
        (AcqThread.loopBody t1 s).1.continue_acq = s.continue_acq ∧
        (AcqThread.loopBody t1 s).1.cam.m_errCount = s.cam.m_errCount + 1 ∧
        (AcqThread.loopBody t1 s).1.cam.m_image_number = s.cam.m_image_number ∧
        publishedFrames (AcqThread.loopBody t1 s).1.cam.trace = publishedFrames s.cam.trace) ∧
      ((AcqThread.loopBody t2 (t2.arrive (AcqThread.loopBody t1 s).1)).2 = false ∧
        (AcqThread.loopBody t2 (t2.arrive (AcqThread.loopBody t1 s).1)).1.continue_acq
          = s.continue_acq ∧
        (AcqThread.loopBody t2 (t2.arrive (AcqThread.loopBody t1 s).1)).1.cam.m_errCount
          = s.cam.m_errCount + 2 ∧
        (AcqThread.loopBody t2 (t2.arrive (AcqThread.loopBody t1 s).1)).1.cam.m_image_number
          = s.cam.m_image_number ∧
        publishedFrames (AcqThread.loopBody t2 (t2.arrive (AcqThread.loopBody t1 s).1)).1.cam.trace
          = publishedFrames s.cam.trace) := by
  obtain ⟨-, k2, k3, -, -, k6⟩ := arrive_keeps t2 (AcqThread.loopBody t1 s).1
  obtain ⟨-, -, k9⟩ := arrive_locals t2 (AcqThread.loopBody t1 s).1
  have e1 := loopBody_transient t1 s h1
  have e2 := loopBody_transient t2 (t2.arrive (AcqThread.loopBody t1 s).1) h2
  have p1 : publishedFrames (AcqThread.loopBody t1 s).1.cam.trace = publishedFrames s.cam.trace := by
    rw [e1]; simp [publishedFrames_append]; simp [publishedFrames]
  refine ⟨⟨by rw [e1], by rw [e1], by rw [e1], by rw [e1], p1⟩, ?_⟩
  rw [e2]
  refine ⟨rfl, ?_, ?_, ?_, ?_⟩
  · show (t2.arrive (AcqThread.loopBody t1 s).1).continue_acq = s.continue_acq
    rw [k9, e1]
  · show (t2.arrive (AcqThread.loopBody t1 s).1).cam.m_errCount + 1 = s.cam.m_errCount + 2
    rw [k3, e1]; show s.cam.m_errCount + 1 + 1 = s.cam.m_errCount + 2; ring
  · show (t2.arrive (AcqThread.loopBody t1 s).1).cam.m_image_number = s.cam.m_image_number
    rw [k2, e1]
  · show publishedFrames ((t2.arrive (AcqThread.loopBody t1 s).1).cam.trace ++ _) = _
    rw [publishedFrames_append, k6, p1]
    simp [publishedFrames]

/-- Witness for C2: codes 27 then 2818 on the exposing worker. -/
theorem transient_code_skips_frame_witness :
    ((AcqThread.loopBody (quietTick 27) exposingWorker).2 = false ∧
        (AcqThread.loopBody (quietTick 27) exposingWorker).1.continue_acq
          = exposingWorker.continue_acq ∧
        (AcqThread.loopBody (quietTick 27) exposingWorker).1.cam.m_errCount
          = exposingWorker.cam.m_errCount + 1 ∧
        (AcqThread.loopBody (quietTick 27) exposingWorker).1.cam.m_image_number
          = exposingWorker.cam.m_image_number ∧
        publishedFrames (AcqThread.loopBody (quietTick 27) exposingWorker).1.cam.trace
          = publishedFrames exposingWorker.cam.trace) ∧
      ((AcqThread.loopBody (quietTick 2818) ((quietTick 2818).arrive
          (AcqThread.loopBody (quietTick 27) exposingWorker).1)).2 = false ∧
        (AcqThread.loopBody (quietTick 2818) ((quietTick 2818).arrive
          (AcqThread.loopBody (quietTick 27) exposingWorker).1)).1.continue_acq
          = exposingWorker.continue_acq ∧
        (AcqThread.loopBody (quietTick 2818) ((quietTick 2818).arrive
          (AcqThread.loopBody (quietTick 27) exposingWorker).1)).1.cam.m_errCount
          = exposingWorker.cam.m_errCount + 2 ∧
        (AcqThread.loopBody (quietTick 2818) ((quietTick 2818).arrive
          (AcqThread.loopBody (quietTick 27) exposingWorker).1)).1.cam.m_image_number
          = exposingWorker.cam.m_image_number ∧
        publishedFrames (AcqThread.loopBody (quietTick 2818) ((quietTick 2818).arrive
          (AcqThread.loopBody (quietTick 27) exposingWorker).1)).1.cam.trace
          = publishedFrames exposingWorker.cam.trace) :=
  transient_code_skips_frame (quietTick 27) (quietTick 2818) exposingWorker
    (Or.inl rfl) (Or.inr rfl)

/-! ## End-to-end success run (C3) -/

/-- C3. End-to-end success run: with frame limit `N > 0`, `m_image_number = 0`
when `startAcq()` is called, vendor start, stop and bias-off calls that
succeed, and `N` ticks in which no stop is requested, the status stays
`Exposure`, the retrieve succeeds and the sink answers "continue", every
observation of the run of at least `N + 1` loop evaluations shows a completed
run: final status `Ready`, exactly the frames `0, 1, ..., N - 1` published in
that order, `m_errCount = 0` and `m_image_number = N`. -/
theorem success_run_publishes_all (N : Nat) (hN : 0 < N) (env : RunEnv) (fuel : Nat)
    (cam : Camera) (rc0 : Int) (tf0 ca0 : Bool)
    (hlimit : cam.m_nb_frames = N) (himg : cam.m_image_number = 0)
    (_hstart : env.startRc = NO_ERROR) (hstop : env.stopRc = NO_ERROR)
    (hbias : env.stopBiasRc = NO_ERROR)
    (hticks : ∀ i, i < N → (env.ticks i).undisturbedSuccess) (hfuel : N + 1 ≤ fuel) :
    (AcqThread.run env fuel
        { cam := cam.startAcq, rc := rc0, trigger_failed := tf0, continue_acq := ca0 }).finalStatus
        = some Status.Ready ∧
      publishedFrames (AcqThread.run env fuel
        { cam := cam.startAcq, rc := rc0, trigger_failed := tf0,
          continue_acq := ca0 }).state.cam.trace
        = publishedFrames cam.trace ++ (List.range N).map (fun j : Nat => (j : Int)) ∧
      (AcqThread.run env fuel
        { cam := cam.startAcq, rc := rc0, trigger_failed := tf0,
          continue_acq := ca0 }).state.cam.m_errCount = 0 ∧
      (AcqThread.run env fuel
        { cam := cam.startAcq, rc := rc0, trigger_failed := tf0,
          continue_acq := ca0 }).state.cam.m_image_number = N := by
  obtain ⟨w1, -, w3, w4, w5, w6, w7, w8⟩ := starting_fields env.startRc env.startBiasRc
    { cam := cam.startAcq, rc := rc0, trigger_failed := tf0, continue_acq := ca0 }
  have hp := starting_frames env.startRc env.startBiasRc
    { cam := cam.startAcq, rc := rc0, trigger_failed := tf0, continue_acq := ca0 }
  have q5 : publishedFrames cam.startAcq.trace = publishedFrames cam.trace := by
    unfold Camera.startAcq Camera.emit
    simp [publishedFrames_append]
    simp [publishedFrames]
  unfold AcqThread.run
  generalize AcqThread.starting env.startRc env.startBiasRc
    { cam := cam.startAcq, rc := rc0, trigger_failed := tf0, continue_acq := ca0 } = s1
    at w1 w3 w4 w5 w6 w7 w8 hp ⊢
  have e1 : s1.cam.m_nb_frames = N := by rw [w4]; exact hlimit
  have e2 : s1.cam.m_image_number = 0 := by rw [w5]; exact himg
  have e3 : s1.cam.m_errCount = 0 := by rw [w6]; rfl
  have e4 : s1.cam.m_acq_started = true := by rw [w7]; rfl
  have e5 : s1.cam.m_status = Status.Exposure := w8
  have e6 : s1.continue_acq = true := w3
  obtain ⟨r1, r2, -, r4, r5, r6⟩ := retrieveLoop_good env.ticks N 0 fuel s1 hfuel
    (by rw [e1, e2]; simp) (by rw [e1]; exact_mod_cast hN) e6 e4 e5
    (fun j hj => by simpa using hticks j hj)
  have hN0 : N ≠ 0 := by omega
  rw [if_neg hN0] at r2
  obtain ⟨f1, -, -, -⟩ := finish_exit_completed env fuel 0 s1 r1 (Or.inr hbias)
  obtain ⟨g1, g2, g3⟩ := finish_frames env fuel 0 s1
  refine ⟨?_, ?_, ?_, ?_⟩
  · rw [f1, r2, hstop]; simp
  · rw [g3, r6, hp, q5, e2]; simp
  · rw [g2, r5, e3]
  · rw [g1, r4, e1]

/-- Witness for C3: frame limit 4, four buffers, four successful retrieves. -/
theorem success_run_publishes_all_witness :
    (AcqThread.run (constEnv NO_ERROR NO_ERROR) 5
        { cam := freshCamera.startAcq, rc := 0, trigger_failed := false,
          continue_acq := false }).finalStatus
        = some Status.Ready ∧
      publishedFrames (AcqThread.run (constEnv NO_ERROR NO_ERROR) 5
        { cam := freshCamera.startAcq, rc := 0, trigger_failed := false,
          continue_acq := false }).state.cam.trace
        = publishedFrames freshCamera.trace ++ (List.range 4).map (fun j : Nat => (j : Int)) ∧
      (AcqThread.run (constEnv NO_ERROR NO_ERROR) 5
        { cam := freshCamera.startAcq, rc := 0, trigger_failed := false,
          continue_acq := false }).state.cam.m_errCount = 0 ∧
      (AcqThread.run (constEnv NO_ERROR NO_ERROR) 5
        { cam := freshCamera.startAcq, rc := 0, trigger_failed := false,
          continue_acq := false }).state.cam.m_image_number = (4 : Nat) :=
  success_run_publishes_all 4 (by decide) (constEnv NO_ERROR NO_ERROR) 5 freshCamera 0 false false
    rfl rfl rfl rfl rfl (fun _ _ => ⟨rfl, Or.inl rfl, rfl, rfl⟩) (by decide)

/-! ## Final status (C4) -/

/-- C4, counterexample. The vendor start and stop calls both return
`NO_ERROR`, the first retrieve returns the error code 5: the run ends with
status `Fault`, not `Ready`. -/
theorem final_status_fault_despite_start_stop_success :
    (constEnv NO_ERROR 5).startRc = NO_ERROR ∧ (constEnv NO_ERROR 5).stopRc = NO_ERROR ∧
      (AcqThread.run (constEnv NO_ERROR 5) 3 (wokenWorker freshCamera)).finalStatus
        = some Status.Fault := by
  decide

/-- C4, amended. For every run that reaches the final status write: the
status written is `Ready` or `Fault`; it is `Fault` whenever the vendor stop
call failed; when the vendor start call succeeded, it is `Ready` exactly when
the stop call succeeded and the code held in `rc` when the retrieval loop was
left is `NO_ERROR`; so it is `Ready` when start, stop and every retrieve call
succeeded. -/
theorem final_status_follows_loop_rc (env : RunEnv) (fuel : Nat) (s : AcqState)
    (hfinal : (AcqThread.run env fuel s).finalStatus ≠ none) :
    ((AcqThread.run env fuel s).finalStatus = some Status.Ready ∨
        (AcqThread.run env fuel s).finalStatus = some Status.Fault) ∧
      (env.stopRc ≠ NO_ERROR → (AcqThread.run env fuel s).finalStatus = some Status.Fault) ∧
      (env.startRc = NO_ERROR →
        ((AcqThread.run env fuel s).finalStatus = some Status.Ready ↔
          env.stopRc = NO_ERROR ∧
            (AcqThread.retrieveLoop env.ticks fuel 0
              (AcqThread.starting env.startRc env.startBiasRc s)).1.rc = NO_ERROR)) ∧
      (env.startRc = NO_ERROR → env.stopRc = NO_ERROR →
        (∀ i, (env.ticks i).rc = NO_ERROR) →
        (AcqThread.run env fuel s).finalStatus = some Status.Ready) := by
  obtain ⟨st, hst0⟩ : ∃ st, (AcqThread.run env fuel s).finalStatus = some st := by
    cases hf : (AcqThread.run env fuel s).finalStatus with
    | none => exact absurd hf hfinal
    | some st => exact ⟨st, rfl⟩
  rw [hst0]
  unfold AcqThread.run at hst0
  obtain ⟨-, hst⟩ := finalStatus_some env fuel 0 _ st hst0
  refine ⟨?_, ?_, ?_, ?_⟩
  · rw [hst]
    split_ifs
    · exact Or.inl rfl
    · exact Or.inr rfl
  · intro h
    rw [hst, if_neg (fun c => h c.2)]
  · intro _
    constructor
    · intro h
      by_contra hc
      rw [hst, if_neg (fun c => hc ⟨c.2, c.1⟩)] at h
      exact absurd h (by decide)
    · intro h
      rw [hst, if_pos ⟨h.2, h.1⟩]
  · intro h1 h2 h3
    have hrc := retrieveLoop_rc_success env.ticks h3 fuel 0
      (AcqThread.starting env.startRc env.startBiasRc s)
      (by rw [(starting_fields env.startRc env.startBiasRc s).1]; exact h1)
    rw [hst, if_pos ⟨hrc, h2⟩]

/-- Witness for C4 (amended): a run in which start, stop and the four
retrieves succeed ends `Ready`; the same run with a failing stop call ends
`Fault`. -/
theorem final_status_follows_loop_rc_witness :
    ((AcqThread.run (constEnv NO_ERROR NO_ERROR) 5 (wokenWorker freshCamera)).finalStatus ≠ none ∧
        (AcqThread.run (constEnv NO_ERROR NO_ERROR) 5 (wokenWorker freshCamera)).finalStatus
          = some Status.Ready) ∧
      ((AcqThread.run { constEnv NO_ERROR NO_ERROR with stopRc := 7 } 5
          (wokenWorker freshCamera)).finalStatus ≠ none ∧
        (AcqThread.run { constEnv NO_ERROR NO_ERROR with stopRc := 7 } 5
          (wokenWorker freshCamera)).finalStatus = some Status.Fault) :=
  ⟨⟨by decide,
      (final_status_follows_loop_rc (constEnv NO_ERROR NO_ERROR) 5 (wokenWorker freshCamera)
        (by decide)).2.2.2 rfl rfl (fun _ => rfl)⟩,
    ⟨by decide,
      (final_status_follows_loop_rc { constEnv NO_ERROR NO_ERROR with stopRc := 7 } 5
        (wokenWorker freshCamera) (by decide)).2.1 (by decide)⟩⟩

/-! ## Start failure (C5) -/

/-- C5, the code at the failing input. The vendor start call returns the error
code 1 on the fresh camera with frame limit 4 and every retrieve succeeds: the
worker issues the bias-off command, and then still makes four
`retrieveBuffer` calls, publishes the frames 0 to 3 and ends with status
`Ready`, because the flag tested by the loop condition is still `true` after
the starting phase. -/
theorem start_failure_still_retrieves :
    (constEnv 1 NO_ERROR).startRc ≠ NO_ERROR ∧
      (AcqThread.starting (constEnv 1 NO_ERROR).startRc (constEnv 1 NO_ERROR).startBiasRc
        (wokenWorker freshCamera)).continue_acq = true ∧
      (AcqThread.starting (constEnv 1 NO_ERROR).startRc (constEnv 1 NO_ERROR).startBiasRc
        (wokenWorker freshCamera)).cam.trace
        = [Effect.broadcast, Effect.setStatus Status.Exposure, Effect.futureGet, Effect.startAcq,
            Effect.setHvBiasOn false, Effect.getNbBuffers] ∧
      retrieveCalls (AcqThread.run (constEnv 1 NO_ERROR) 5 (wokenWorker freshCamera)).state.cam.trace
        = 4 ∧
      publishedFrames (AcqThread.run (constEnv 1 NO_ERROR) 5 (wokenWorker freshCamera)).state.cam.trace
        = [0, 1, 2, 3] ∧
      (AcqThread.run (constEnv 1 NO_ERROR) 5 (wokenWorker freshCamera)).finalStatus
        = some Status.Ready := by
  decide

/-! ## Gate timeout with zero frames (C6) -/

/-- C6. Gate timeout with zero frames: in trigger mode `ExtGate`, when the
loop condition holds and `retrieveBuffer` returns 30 while
`m_image_number = 0`, the retrieval loop is left in that iteration with
`trigger_failed` set; the stopping phase clears `m_acq_started` and calls the
vendor `stopAcq`, writes neither status `Readout` nor issues the bias-off
command (the trace of the rest of the run is exactly: buffer request,
retrieve, vendor stop, status `Fault`), and the run completes with final
status `Fault`. -/
theorem gate_timeout_without_frame (env : RunEnv) (fuel i : Nat) (s : AcqState)
    (hcond : ((env.ticks i).arrive s).loopCond = true)
    (hrc : (env.ticks i).rc = 30)
    (hmode : s.cam.m_trig_mode = TrigMode.ExtGate)
    (himg : s.cam.m_image_number = 0) :
    (AcqThread.retrieveLoop env.ticks (fuel + 1) i s).2 = true ∧
      (AcqThread.retrieveLoop env.ticks (fuel + 1) i s).1.trigger_failed = true ∧
      (AcqThread.finish env (fuel + 1) i s).state.trigger_failed = true ∧
      (AcqThread.finish env (fuel + 1) i s).state.cam.m_acq_started = false ∧
      (AcqThread.finish env (fuel + 1) i s).state.cam.trace =
        s.cam.trace ++
          [Effect.getFrameBufferPtr 0, Effect.retrieveBuffer s.cam.m_timeout, Effect.stopAcq,
            Effect.setStatus Status.Fault] ∧
      (AcqThread.finish env (fuel + 1) i s).finalStatus = some Status.Fault := by
  obtain ⟨-, k2, -, k4, k5, k6⟩ := arrive_keeps (env.ticks i) s
  have hb := loopBody_gate_timeout_first (env.ticks i) ((env.ticks i).arrive s) hrc
    (by rw [k4]; exact hmode) (by rw [k2]; exact himg)
  have hl := retrieveLoop_break env.ticks fuel i s hcond (by rw [hb])
  rw [hb] at hl
  have hexit : (AcqThread.retrieveLoop env.ticks (fuel + 1) i s).2 = true := by rw [hl]
  have htf : (AcqThread.retrieveLoop env.ticks (fuel + 1) i s).1.trigger_failed = true := by
    rw [hl]
  obtain ⟨f1, f2, f3, f4⟩ := finish_exit_completed env (fuel + 1) i s hexit (Or.inl htf)
  refine ⟨hexit, htf, by rw [f3, htf], f2, ?_, ?_⟩
  · rw [f4, hl]
    simp [k5, k6, NO_ERROR]
  · rw [f1, hl]
    simp [NO_ERROR]

/-- Witness for C6: the started gate camera, first retrieve returns 30. -/
theorem gate_timeout_without_frame_witness :
    (AcqThread.retrieveLoop (constEnv NO_ERROR 30).ticks (0 + 1) 0
        (AcqThread.starting NO_ERROR NO_ERROR (wokenWorker gateCamera))).2 = true ∧
      (AcqThread.retrieveLoop (constEnv NO_ERROR 30).ticks (0 + 1) 0
        (AcqThread.starting NO_ERROR NO_ERROR (wokenWorker gateCamera))).1.trigger_failed = true ∧
      (AcqThread.finish (constEnv NO_ERROR 30) (0 + 1) 0
        (AcqThread.starting NO_ERROR NO_ERROR (wokenWorker gateCamera))).state.trigger_failed
        = true ∧
      (AcqThread.finish (constEnv NO_ERROR 30) (0 + 1) 0
        (AcqThread.starting NO_ERROR NO_ERROR (wokenWorker gateCamera))).state.cam.m_acq_started
        = false ∧
      (AcqThread.finish (constEnv NO_ERROR 30) (0 + 1) 0
        (AcqThread.starting NO_ERROR NO_ERROR (wokenWorker gateCamera))).state.cam.trace =
        (AcqThread.starting NO_ERROR NO_ERROR (wokenWorker gateCamera)).cam.trace ++
          [Effect.getFrameBufferPtr 0,
            Effect.retrieveBuffer
              (AcqThread.starting NO_ERROR NO_ERROR (wokenWorker gateCamera)).cam.m_timeout,
            Effect.stopAcq, Effect.setStatus Status.Fault] ∧
      (AcqThread.finish (constEnv NO_ERROR 30) (0 + 1) 0
        (AcqThread.starting NO_ERROR NO_ERROR (wokenWorker gateCamera))).finalStatus
        = some Status.Fault :=
  gate_timeout_without_frame (constEnv NO_ERROR 30) 0 0
    (AcqThread.starting NO_ERROR NO_ERROR (wokenWorker gateCamera)) (by decide) rfl rfl rfl

/-! ## Gate timeout after at least one frame (C7) -/

/-- C7. Gate timeout after at least one frame: in trigger mode `ExtGate`, in a
run that is not trigger-failed, when the loop condition holds and
`retrieveBuffer` returns 30 while `m_image_number > 0`, the retrieval loop is
left in that iteration as a normal completion (`rc` rewritten to `NO_ERROR`,
`trigger_failed` still clear); the stopping phase calls the vendor `stopAcq`,
writes status `Readout` and issues the bias-off command; and, the bias-off
command succeeding, the run completes with final status `Ready` if the vendor
stop call succeeded and `Fault` otherwise. -/
theorem gate_timeout_after_frames (env : RunEnv) (fuel i : Nat) (s : AcqState)
    (hcond : ((env.ticks i).arrive s).loopCond = true)
    (hrc : (env.ticks i).rc = 30)
    (hmode : s.cam.m_trig_mode = TrigMode.ExtGate)
    (himg : 0 < s.cam.m_image_number)
    (hnot : s.trigger_failed = false)
    (hbias : env.stopBiasRc = NO_ERROR) :
    (AcqThread.retrieveLoop env.ticks (fuel + 1) i s).2 = true ∧
      (AcqThread.retrieveLoop env.ticks (fuel + 1) i s).1.rc = NO_ERROR ∧
      (AcqThread.finish env (fuel + 1) i s).state.trigger_failed = false ∧
      (AcqThread.finish env (fuel + 1) i s).state.cam.m_acq_started = false ∧
      (AcqThread.finish env (fuel + 1) i s).state.cam.trace =
        s.cam.trace ++
          [Effect.getFrameBufferPtr s.cam.m_image_number, Effect.retrieveBuffer s.cam.m_timeout,
            Effect.stopAcq, Effect.setStatus Status.Readout, Effect.setHvBiasOn false,
            Effect.setStatus (if env.stopRc = NO_ERROR then Status.Ready else Status.Fault)] ∧
      (AcqThread.finish env (fuel + 1) i s).finalStatus =
        some (if env.stopRc = NO_ERROR then Status.Ready else Status.Fault) ∧
      ((AcqThread.finish env (fuel + 1) i s).finalStatus = some Status.Ready ↔
        env.stopRc = NO_ERROR) := by
  obtain ⟨-, k2, -, k4, k5, k6⟩ := arrive_keeps (env.ticks i) s
  obtain ⟨-, k8, -⟩ := arrive_locals (env.ticks i) s
  have hb := loopBody_gate_timeout_later (env.ticks i) ((env.ticks i).arrive s) hrc
    (by rw [k4]; exact hmode) (by rw [k2]; exact himg)
  have hl := retrieveLoop_break env.ticks fuel i s hcond (by rw [hb])
  rw [hb] at hl
  have hexit : (AcqThread.retrieveLoop env.ticks (fuel + 1) i s).2 = true := by rw [hl]
  have htf : (AcqThread.retrieveLoop env.ticks (fuel + 1) i s).1.trigger_failed = false := by
    rw [hl]; exact k8.trans hnot
  have hrc2 : (AcqThread.retrieveLoop env.ticks (fuel + 1) i s).1.rc = NO_ERROR := by rw [hl]
  obtain ⟨f1, f2, f3, f4⟩ := finish_exit_completed env (fuel + 1) i s hexit (Or.inr hbias)
  have hfin : (AcqThread.finish env (fuel + 1) i s).finalStatus =
      some (if env.stopRc = NO_ERROR then Status.Ready else Status.Fault) := by
    rw [f1, hrc2]; simp
  refine ⟨hexit, hrc2, by rw [f3, htf], f2, ?_, hfin, ?_⟩
  · rw [f4, htf, hrc2, hl]
    simp [k2, k5, k6]
  · rw [hfin]
    by_cases h : env.stopRc = NO_ERROR <;> simp [h]

/-- Witness for C7: the started gate camera after one retrieved frame; the
next retrieve returns 30. -/
theorem gate_timeout_after_frames_witness :
    (AcqThread.retrieveLoop gateEnv.ticks (0 + 1) 1
        (AcqThread.retrieveLoop gateEnv.ticks 1 0
          (AcqThread.starting NO_ERROR NO_ERROR (wokenWorker gateCamera))).1).1.rc = NO_ERROR ∧
      (AcqThread.finish gateEnv (0 + 1) 1
        (AcqThread.retrieveLoop gateEnv.ticks 1 0
          (AcqThread.starting NO_ERROR NO_ERROR (wokenWorker gateCamera))).1).finalStatus
        = some Status.Ready :=
  ⟨(gate_timeout_after_frames gateEnv 0 1
      (AcqThread.retrieveLoop gateEnv.ticks 1 0
        (AcqThread.starting NO_ERROR NO_ERROR (wokenWorker gateCamera))).1
      (by decide) rfl rfl (by decide) rfl rfl).2.1,
    (gate_timeout_after_frames gateEnv 0 1
      (AcqThread.retrieveLoop gateEnv.ticks 1 0
        (AcqThread.starting NO_ERROR NO_ERROR (wokenWorker gateCamera))).1
      (by decide) rfl rfl (by decide) rfl rfl).2.2.2.2.2.1⟩

/-! ## Success during a bias pause (C8) -/

/-- C8. A successful retrieve is counted only in status `Exposure`: in every
loop state, when `retrieveBuffer` returns `NO_ERROR` and the status read is
not `Exposure`, the iteration publishes nothing, leaves `m_image_number` and
`m_errCount` unchanged and does not leave the loop (it sleeps 500 ms); when
the status read is `Exposure`, the iteration makes exactly one
`newFrameReady` call, with `acq_frame_nb` equal to the current
`m_image_number`, as its last effect, and then `m_image_number` is larger by
exactly 1. -/
theorem success_counted_only_in_exposure (t : Tick) (s : AcqState) (hrc : t.rc = NO_ERROR) :
    (s.cam.getStatus ≠ Status.Exposure →
        (AcqThread.loopBody t s).2 = false ∧
          (AcqThread.loopBody t s).1.continue_acq = s.continue_acq ∧
          (AcqThread.loopBody t s).1.cam.m_image_number = s.cam.m_image_number ∧
          (AcqThread.loopBody t s).1.cam.m_errCount = s.cam.m_errCount ∧
          (AcqThread.loopBody t s).1.cam.trace = s.cam.trace ++
            [Effect.getFrameBufferPtr s.cam.m_image_number,
              Effect.retrieveBuffer s.cam.m_timeout, Effect.sleep_for 500] ∧
          publishedFrames (AcqThread.loopBody t s).1.cam.trace = publishedFrames s.cam.trace) ∧
      (s.cam.getStatus = Status.Exposure →
        (AcqThread.loopBody t s).1.cam.trace = s.cam.trace ++
            [Effect.getFrameBufferPtr s.cam.m_image_number,
              Effect.retrieveBuffer s.cam.m_timeout,
              Effect.newFrameReady s.cam.m_image_number] ∧
          publishedFrames (AcqThread.loopBody t s).1.cam.trace
            = publishedFrames s.cam.trace ++ [s.cam.m_image_number] ∧
          (AcqThread.loopBody t s).1.cam.m_image_number = s.cam.m_image_number + 1 ∧
          (AcqThread.loopBody t s).1.cam.m_errCount = s.cam.m_errCount ∧
          (AcqThread.loopBody t s).2 = false ∧
          (AcqThread.loopBody t s).1.continue_acq = t.newFrameReady) := by
  constructor
  · intro hst
    have hst2 : ¬ s.cam.m_status = Status.Exposure := hst
    unfold AcqThread.loopBody Camera.emit Camera.getStatus
    simp [hrc, hst2, publishedFrames_append]
    simp [publishedFrames]
  · intro hst
    have hst2 : s.cam.m_status = Status.Exposure := hst
    unfold AcqThread.loopBody Camera.emit Camera.getStatus
    simp [hrc, hst2, publishedFrames_append]
    simp [publishedFrames]

/-- Witness for C8: a successful retrieve on the paused worker (status
`Paused`) and on the exposing worker (status `Exposure`). -/
theorem success_counted_only_in_exposure_witness :
    ((AcqThread.loopBody (quietTick NO_ERROR) pausedWorker).2 = false ∧
        (AcqThread.loopBody (quietTick NO_ERROR) pausedWorker).1.cam.m_image_number
          = pausedWorker.cam.m_image_number ∧
        publishedFrames (AcqThread.loopBody (quietTick NO_ERROR) pausedWorker).1.cam.trace
          = publishedFrames pausedWorker.cam.trace) ∧
      (publishedFrames (AcqThread.loopBody (quietTick NO_ERROR) exposingWorker).1.cam.trace
          = publishedFrames exposingWorker.cam.trace ++ [exposingWorker.cam.m_image_number] ∧
        (AcqThread.loopBody (quietTick NO_ERROR) exposingWorker).1.cam.m_image_number
          = exposingWorker.cam.m_image_number + 1) :=
  ⟨⟨((success_counted_only_in_exposure (quietTick NO_ERROR) pausedWorker rfl).1 (by decide)).1,
      ((success_counted_only_in_exposure (quietTick NO_ERROR) pausedWorker rfl).1
        (by decide)).2.2.1,
      ((success_counted_only_in_exposure (quietTick NO_ERROR) pausedWorker rfl).1
        (by decide)).2.2.2.2.2⟩,
    ⟨((success_counted_only_in_exposure (quietTick NO_ERROR) exposingWorker rfl).2 rfl).2.1,
      ((success_counted_only_in_exposure (quietTick NO_ERROR) exposingWorker rfl).2 rfl).2.2.1⟩⟩

/-! ## Hard retrieval error (C9) -/

/-- C9. Hard retrieval error: when the loop condition holds and
`retrieveBuffer` returns a code other than `NO_ERROR`, 27, 2818 and
30-in-`ExtGate`-mode, the retrieval loop is left in that iteration with
`m_image_number` and `m_errCount` unchanged and no frame published, the
stopping phase changes none of them, and, the bias-off command of the stopping
phase succeeding, the run completes with final status `Fault` whatever the
vendor stop call returns. -/
theorem hard_error_ends_run (env : RunEnv) (fuel i : Nat) (s : AcqState)
    (hcond : ((env.ticks i).arrive s).loopCond = true)
    (h0 : (env.ticks i).rc ≠ NO_ERROR) (h27 : (env.ticks i).rc ≠ 27)
    (h2818 : (env.ticks i).rc ≠ 2818)
    (h30 : ¬ ((env.ticks i).rc = 30 ∧ s.cam.m_trig_mode = TrigMode.ExtGate))
    (hbias : env.stopBiasRc = NO_ERROR) :
    ((AcqThread.retrieveLoop env.ticks (fuel + 1) i s).2 = true ∧
        (AcqThread.retrieveLoop env.ticks (fuel + 1) i s).1.cam.m_image_number
          = s.cam.m_image_number ∧
        (AcqThread.retrieveLoop env.ticks (fuel + 1) i s).1.cam.m_errCount = s.cam.m_errCount ∧
        publishedFrames (AcqThread.retrieveLoop env.ticks (fuel + 1) i s).1.cam.trace
          = publishedFrames s.cam.trace) ∧
      ((AcqThread.finish env (fuel + 1) i s).state.cam.m_image_number = s.cam.m_image_number ∧
        (AcqThread.finish env (fuel + 1) i s).state.cam.m_errCount = s.cam.m_errCount ∧
        publishedFrames (AcqThread.finish env (fuel + 1) i s).state.cam.trace
          = publishedFrames s.cam.trace ∧
        (AcqThread.finish env (fuel + 1) i s).finalStatus = some Status.Fault) := by
  obtain ⟨-, k2, k3, k4, -, k6⟩ := arrive_keeps (env.ticks i) s
  have hb := loopBody_hard_error (env.ticks i) ((env.ticks i).arrive s) h0 h27 h2818
    (by rw [k4]; exact h30)
  have hl := retrieveLoop_break env.ticks fuel i s hcond (by rw [hb])
  rw [hb] at hl
  have hexit : (AcqThread.retrieveLoop env.ticks (fuel + 1) i s).2 = true := by rw [hl]
  have hrc : (AcqThread.retrieveLoop env.ticks (fuel + 1) i s).1.rc = (env.ticks i).rc := by
    rw [hl]
  have himg : (AcqThread.retrieveLoop env.ticks (fuel + 1) i s).1.cam.m_image_number
      = s.cam.m_image_number := by rw [hl]; exact k2
  have herr : (AcqThread.retrieveLoop env.ticks (fuel + 1) i s).1.cam.m_errCount
      = s.cam.m_errCount := by rw [hl]; exact k3
  have hpub : publishedFrames (AcqThread.retrieveLoop env.ticks (fuel + 1) i s).1.cam.trace
      = publishedFrames s.cam.trace := by
    rw [hl]
    simp only [publishedFrames_append, k6]
    simp [publishedFrames]
  obtain ⟨f1, -, -, -⟩ := finish_exit_completed env (fuel + 1) i s hexit (Or.inr hbias)
  obtain ⟨g1, g2, g3⟩ := finish_frames env (fuel + 1) i s
  refine ⟨⟨hexit, himg, herr, hpub⟩, by rw [g1, himg], by rw [g2, herr], by rw [g3, hpub], ?_⟩
  rw [f1, hrc, if_neg (fun c => h0 c.1)]

/-- Witness for C9: vendor code 5 on the exposing worker. -/
theorem hard_error_ends_run_witness :
    ((AcqThread.retrieveLoop (constEnv NO_ERROR 5).ticks (0 + 1) 0 exposingWorker).2 = true ∧
        (AcqThread.retrieveLoop (constEnv NO_ERROR 5).ticks (0 + 1) 0
            exposingWorker).1.cam.m_image_number
          = exposingWorker.cam.m_image_number ∧
        (AcqThread.retrieveLoop (constEnv NO_ERROR 5).ticks (0 + 1) 0
            exposingWorker).1.cam.m_errCount = exposingWorker.cam.m_errCount ∧
        publishedFrames (AcqThread.retrieveLoop (constEnv NO_ERROR 5).ticks (0 + 1) 0
            exposingWorker).1.cam.trace
          = publishedFrames exposingWorker.cam.trace) ∧
      ((AcqThread.finish (constEnv NO_ERROR 5) (0 + 1) 0 exposingWorker).state.cam.m_image_number
          = exposingWorker.cam.m_image_number ∧
        (AcqThread.finish (constEnv NO_ERROR 5) (0 + 1) 0 exposingWorker).state.cam.m_errCount
          = exposingWorker.cam.m_errCount ∧
        publishedFrames (AcqThread.finish (constEnv NO_ERROR 5) (0 + 1) 0
            exposingWorker).state.cam.trace
          = publishedFrames exposingWorker.cam.trace ∧
        (AcqThread.finish (constEnv NO_ERROR 5) (0 + 1) 0 exposingWorker).finalStatus
          = some Status.Fault) :=
  hard_error_ends_run (constEnv NO_ERROR 5) 0 0 exposingWorker (by decide) (by decide)
    (by decide) (by decide) (by decide) rfl

/-! ## Counter reset at run start (C10) -/

/-- C10, counterexample. On a camera whose previous run left
`m_image_number = 5`, `startAcq()` followed by the starting phase of the worker
leaves `m_image_number = 5`, not 0. -/
theorem start_does_not_reset_image_number :
    usedCamera.m_image_number = 5 ∧
      (AcqThread.starting NO_ERROR NO_ERROR (wokenWorker usedCamera)).cam.m_image_number = 5 ∧
      (AcqThread.starting NO_ERROR NO_ERROR (wokenWorker usedCamera)).cam.m_image_number ≠ 0 := by
  decide

/-- C10, amended. For every prior state, `startAcq()` followed by the starting
phase of the worker leaves `m_errCount = 0` and leaves `m_image_number` as it
was; `m_image_number` is cleared by `prepareAcq()`, so that after
`prepareAcq()`, `startAcq()` and the starting phase both counters are 0 before
the first retrieve call. -/
theorem counters_reset_by_prepare_and_start (cam cam' : Camera)
    (biasRc startRc startBiasRc rc0 : Int) (tf0 ca0 : Bool)
    (hprep : cam.prepareAcq biasRc = Except.ok cam') :
    ((AcqThread.starting startRc startBiasRc
          { cam := cam.startAcq, rc := rc0, trigger_failed := tf0,
            continue_acq := ca0 }).cam.m_errCount = 0 ∧
        (AcqThread.starting startRc startBiasRc
          { cam := cam.startAcq, rc := rc0, trigger_failed := tf0,
            continue_acq := ca0 }).cam.m_image_number = cam.m_image_number) ∧
      ((AcqThread.starting startRc startBiasRc
          { cam := cam'.startAcq, rc := rc0, trigger_failed := tf0,
            continue_acq := ca0 }).cam.m_image_number = 0 ∧
        (AcqThread.starting startRc startBiasRc
          { cam := cam'.startAcq, rc := rc0, trigger_failed := tf0,
            continue_acq := ca0 }).cam.m_errCount = 0) := by
  obtain ⟨-, -, -, -, a5, a6, -, -⟩ := starting_fields startRc startBiasRc
    { cam := cam.startAcq, rc := rc0, trigger_failed := tf0, continue_acq := ca0 }
  obtain ⟨-, -, -, -, b5, b6, -, -⟩ := starting_fields startRc startBiasRc
    { cam := cam'.startAcq, rc := rc0, trigger_failed := tf0, continue_acq := ca0 }
  refine ⟨⟨by rw [a6]; rfl, by rw [a5]; rfl⟩, ?_, by rw [b6]; rfl⟩
  rw [b5]
  exact prepareAcq_image_number biasRc cam cam' hprep

/-- Witness for C10 (amended): the used camera (5 frames, 3 skipped), prepared
and started. -/
theorem counters_reset_by_prepare_and_start_witness :
    usedCamera.prepareAcq NO_ERROR = Except.ok preparedCamera ∧
      ((AcqThread.starting NO_ERROR NO_ERROR
            { cam := usedCamera.startAcq, rc := 0, trigger_failed := false,
              continue_acq := false }).cam.m_errCount = 0 ∧
        (AcqThread.starting NO_ERROR NO_ERROR
            { cam := usedCamera.startAcq, rc := 0, trigger_failed := false,
              continue_acq := false }).cam.m_image_number = usedCamera.m_image_number) ∧
      ((AcqThread.starting NO_ERROR NO_ERROR
            { cam := preparedCamera.startAcq, rc := 0, trigger_failed := false,
              continue_acq := false }).cam.m_image_number = 0 ∧
        (AcqThread.starting NO_ERROR NO_ERROR
            { cam := preparedCamera.startAcq, rc := 0, trigger_failed := false,
              continue_acq := false }).cam.m_errCount = 0) :=
  ⟨rfl, counters_reset_by_prepare_and_start usedCamera preparedCamera NO_ERROR NO_ERROR NO_ERROR
    0 false false rfl⟩

/-! ## Exposure time and frame count (C12) -/

theorem cycle_stopped_mid_cycle (env : TimerEnv) (cam : Camera)
    (h0 : env.started 0 = true) (h1 : env.started 1 = false) (h2 : env.started 2 = false)
    (h3 : env.started 3 = false) (hb : env.biasOffRc = NO_ERROR) :
    TimerThread.cycle env cam =
      Except.ok { cam with
        m_acq_started := false
        m_status := Status.Paused
        trace := cam.trace ++
          [Effect.sleep_for cam.m_biasVoltageRefreshInterval, Effect.setStatus Status.Paused,
            Effect.setHvBiasOn false, Effect.sleep_for cam.m_biasVoltageSettleTime] } := by
  unfold TimerThread.cycle TimerEnv.observe Camera.setHvBiasOff Camera.setStatus Camera.emit
  simp [h0, h1, h2, h3, hb]

/-- C13, the code at the failing input. Acquisition is active after the
interval sleep and stopped at every later check of the cycle: the worker
writes status `Paused`, turns bias off, skips the refresh sleep, the bias-on
command and the write of status `Exposure`, but still sleeps for
`m_biasVoltageSettleTime` (2000 ms). -/
theorem settle_sleep_not_guarded :
    (TimerThread.cycle stoppedMidCycle exposingWorker.cam).isOk = true ∧
      (cycleCamera (TimerThread.cycle stoppedMidCycle exposingWorker.cam)).trace =
        exposingWorker.cam.trace ++
          [Effect.sleep_for 10000, Effect.setStatus Status.Paused, Effect.setHvBiasOn false,
            Effect.sleep_for 2000] ∧
      exposingWorker.cam.m_biasVoltageSettleTime = 2000 ∧
      Effect.sleep_for exposingWorker.cam.m_biasVoltageSettleTime ∈
        (cycleCamera (TimerThread.cycle stoppedMidCycle exposingWorker.cam)).trace := by
  decide

/-! ## Trigger-mode validation (C14) -/

/-- C14. Trigger-mode validation: `checkTrigMode(m)` is `true` exactly for
`IntTrig`, `ExtTrigSingle`, `ExtTrigMult` and `ExtGate`; `setTrigMode(m)`
raises exactly when `checkTrigMode(m)` is `false`, the error raised is
`NotSupported` and `getTrigMode` then returns what it returned before the
call; when `setTrigMode(m)` returns, `getTrigMode` returns `m`. -/
theorem trig_mode_validation (m : TrigMode) (cam : Camera) :
    (Camera.checkTrigMode m = true ↔
        m = TrigMode.IntTrig ∨ m = TrigMode.ExtTrigSingle ∨ m = TrigMode.ExtTrigMult ∨
          m = TrigMode.ExtGate) ∧
      (match cam.setTrigMode m with
        | Except.ok cam' => Camera.checkTrigMode m = true ∧ cam'.getTrigMode = m
        | Except.error (kind, cam') =>
          Camera.checkTrigMode m = false ∧ kind = HwError.NotSupported ∧
            cam'.getTrigMode = cam.getTrigMode) := by
  cases m <;> simp [Camera.checkTrigMode, Camera.setTrigMode, Camera.getTrigMode, Camera.emit]

/-! ## Prepare and frames per trigger (C15) -/

/-- C15. Frames per trigger in `prepareAcq()`: when the bias-on command
succeeds, `prepareAcq()` returns; afterwards `m_framesPerTrigger` is its
previous value when that was not 0 and `m_nb_frames` when it was 0,
`m_image_number` is 0, and the calls made are bias on, the bias-settle task,
`setFrameDim`, `setNbBuffers`, followed by `setTriggeredFrameCount` with the
resulting `m_framesPerTrigger` exactly when the trigger mode is
`ExtTrigSingle` or `ExtTrigMult`. -/
theorem prepare_sets_frames_per_trigger (cam : Camera) (biasRc : Int)
    (hbias : biasRc = NO_ERROR) :
    match cam.prepareAcq biasRc with
    | Except.error _ => False
    | Except.ok cam' =>
      cam'.m_framesPerTrigger =
          (if cam.m_framesPerTrigger = 0 then cam.m_nb_frames else cam.m_framesPerTrigger) ∧
        cam'.m_image_number = 0 ∧
        cam'.trace = cam.trace ++
          ([Effect.setHvBiasOn true, Effect.futureAsync cam.m_biasVoltageRefreshTime,
              Effect.setFrameDim, Effect.setNbBuffers cam.m_bufferCount] ++
            (if cam.m_trig_mode = TrigMode.ExtTrigSingle ∨
                cam.m_trig_mode = TrigMode.ExtTrigMult
              then [Effect.setTriggeredFrameCount cam'.m_framesPerTrigger] else [])) ∧
        (Effect.setTriggeredFrameCount cam'.m_framesPerTrigger ∈
            cam'.trace.drop cam.trace.length ↔
          cam.m_trig_mode = TrigMode.ExtTrigSingle ∨ cam.m_trig_mode = TrigMode.ExtTrigMult) := by
  subst hbias
  unfold Camera.prepareAcq Camera.setHvBiasOn Camera.emit
  by_cases h0 : cam.m_framesPerTrigger = 0 <;>
    by_cases h1 : cam.m_trig_mode = TrigMode.ExtTrigSingle ∨
      cam.m_trig_mode = TrigMode.ExtTrigMult <;>
    simp [h0, h1]

/-- Witness for C15: the used camera (frame count 4, frames per trigger unset)
in trigger mode `ExtTrigMult`. -/
theorem prepare_sets_frames_per_trigger_witness :
    match triggeredCamera.prepareAcq NO_ERROR with
    | Except.error _ => False
    | Except.ok cam' =>
      cam'.m_framesPerTrigger =
          (if triggeredCamera.m_framesPerTrigger = 0 then triggeredCamera.m_nb_frames
            else triggeredCamera.m_framesPerTrigger) ∧
        cam'.m_image_number = 0 ∧
        cam'.trace = triggeredCamera.trace ++
          ([Effect.setHvBiasOn true, Effect.futureAsync triggeredCamera.m_biasVoltageRefreshTime,
              Effect.setFrameDim, Effect.setNbBuffers triggeredCamera.m_bufferCount] ++
            (if triggeredCamera.m_trig_mode = TrigMode.ExtTrigSingle ∨
                triggeredCamera.m_trig_mode = TrigMode.ExtTrigMult
              then [Effect.setTriggeredFrameCount cam'.m_framesPerTrigger] else [])) ∧
        (Effect.setTriggeredFrameCount cam'.m_framesPerTrigger ∈
            cam'.trace.drop triggeredCamera.trace.length ↔
          triggeredCamera.m_trig_mode = TrigMode.ExtTrigSingle ∨
            triggeredCamera.m_trig_mode = TrigMode.ExtTrigMult) :=
  prepare_sets_frames_per_trigger triggeredCamera NO_ERROR rfl

/-! ## Sticky trigger-failed flag (C17) -/

theorem loopBody_trigger_failed (t : Tick) (s : AcqState) (h : s.trigger_failed = true) :
    (AcqThread.loopBody t s).1.trigger_failed = true := by
  unfold AcqThread.loopBody
  simp only
  split_ifs <;> first | exact h | rfl

theorem retrieveLoop_trigger_failed (ticks : Nat → Tick) :
    ∀ (fuel i : Nat) (s : AcqState), s.trigger_failed = true →
      (AcqThread.retrieveLoop ticks fuel i s).1.trigger_failed = true := by
  intro fuel
  induction fuel with
  | zero => intro i s h; exact h
  | succ fuel ih =>
    intro i s h
    rw [retrieveLoop_succ]
    split_ifs
    · exact loopBody_trigger_failed _ _ h
    · exact ih _ _ (loopBody_trigger_failed _ _ h)
    · exact h

theorem loopExit_trigger_failed (env : RunEnv) (fuel : Nat) (s : AcqState)
    (h : s.trigger_failed = true) : (AcqThread.loopExit env fuel s).trigger_failed = true := by
  unfold AcqThread.loopExit
  apply retrieveLoop_trigger_failed
  rw [(starting_fields env.startRc env.startBiasRc s).2.1]
  exact h

theorem stopping_trigger_failed (stopRc biasRc : Int) (s : AcqState)
    (h : s.trigger_failed = true) :
    AcqThread.stopping stopRc biasRc s =
      Except.ok { s with cam := { s.cam with
        m_acq_started := false
        m_status := if s.rc = NO_ERROR ∧ stopRc = NO_ERROR then Status.Ready else Status.Fault
        trace := s.cam.trace ++ [Effect.stopAcq,
          Effect.setStatus
            (if s.rc = NO_ERROR ∧ stopRc = NO_ERROR then Status.Ready else Status.Fault)] } } := by
  rw [stopping_eq, if_pos h]

theorem run_eq_of_trigger_failed (env : RunEnv) (fuel : Nat) (s : AcqState)
    (h : s.trigger_failed = true) :
    AcqThread.run env fuel s =
      if (AcqThread.retrieveLoop env.ticks fuel 0
          (AcqThread.starting env.startRc env.startBiasRc s)).2 = true then
        RunResult.completed { AcqThread.loopExit env fuel s with cam :=
          { (AcqThread.loopExit env fuel s).cam with
            m_acq_started := false
            m_status := if (AcqThread.loopExit env fuel s).rc = NO_ERROR ∧ env.stopRc = NO_ERROR
              then Status.Ready else Status.Fault
            trace := (AcqThread.loopExit env fuel s).cam.trace ++ [Effect.stopAcq,
              Effect.setStatus
                (if (AcqThread.loopExit env fuel s).rc = NO_ERROR ∧ env.stopRc = NO_ERROR
                  then Status.Ready else Status.Fault)] } }
      else RunResult.running (AcqThread.loopExit env fuel s) := by
  have hs := stopping_trigger_failed env.stopRc env.stopBiasRc (AcqThread.loopExit env fuel s)
    (loopExit_trigger_failed env fuel s h)
  unfold AcqThread.run
  rw [finish_eq]
  unfold AcqThread.loopExit at hs ⊢
  rw [hs]

theorem run_trigger_failed (env : RunEnv) (fuel : Nat) (s : AcqState)
    (h : s.trigger_failed = true) : (AcqThread.run env fuel s).state.trigger_failed = true := by
  rw [run_eq_of_trigger_failed env fuel s h]
  split_ifs <;> exact loopExit_trigger_failed env fuel s h

theorem outerLoop_trigger_failed :
    ∀ (sessions : List Session) (s : AcqState), s.trigger_failed = true →
      (AcqThread.outerLoop sessions s).state.trigger_failed = true := by
  intro sessions
  induction sessions with
  | nil => intro s h; exact h
  | cons ses rest ih =>
    intro s h
    rw [AcqThread.outerLoop]
    simp only
    split_ifs with h1 h2
    · exact ih _ h
    · exact h
    · have hr := run_trigger_failed ses.env ses.fuel { s with cam := ses.wake s.cam } h
      rcases hrun : AcqThread.run ses.env ses.fuel { s with cam := ses.wake s.cam } with r | r | r
      · rw [hrun] at hr
        exact ih r hr
      · rw [hrun] at hr
        exact hr
      · rw [hrun] at hr
        exact hr

theorem loopBody_count (t : Tick) (s : AcqState) (e : Effect)
    (h1 : ∀ n, e ≠ Effect.getFrameBufferPtr n) (h2 : ∀ n, e ≠ Effect.retrieveBuffer n)
    (h3 : ∀ n, e ≠ Effect.newFrameReady n) (h4 : ∀ n, e ≠ Effect.sleep_for n) :
    (AcqThread.loopBody t s).1.cam.trace.count e = s.cam.trace.count e := by
  have a1 := fun n => Ne.symm (h1 n)
  have a2 := fun n => Ne.symm (h2 n)
  have a3 := fun n => Ne.symm (h3 n)
  have a4 := fun n => Ne.symm (h4 n)
  unfold AcqThread.loopBody Camera.emit Camera.getStatus
  simp only
  split_ifs <;> simp [List.count_append, List.count_cons, a1, a2, a3, a4]

theorem retrieveLoop_count (ticks : Nat → Tick) (e : Effect)
    (h1 : ∀ n, e ≠ Effect.getFrameBufferPtr n) (h2 : ∀ n, e ≠ Effect.retrieveBuffer n)
    (h3 : ∀ n, e ≠ Effect.newFrameReady n) (h4 : ∀ n, e ≠ Effect.sleep_for n) :
    ∀ (fuel i : Nat) (s : AcqState),
      (AcqThread.retrieveLoop ticks fuel i s).1.cam.trace.count e = s.cam.trace.count e := by
  intro fuel
  induction fuel with
  | zero => intro i s; rfl
  | succ fuel ih =>
    intro i s
    have hb := loopBody_count (ticks i) ((ticks i).arrive s) e h1 h2 h3 h4
    rw [(arrive_keeps (ticks i) s).2.2.2.2.2] at hb
    rw [retrieveLoop_succ]
    split_ifs
    · exact hb
    · rw [ih, hb]
    · show ((ticks i).arrive s).cam.trace.count e = _
      rw [(arrive_keeps (ticks i) s).2.2.2.2.2]

theorem loopExit_count_readout (env : RunEnv) (fuel : Nat) (s : AcqState) :
    (AcqThread.loopExit env fuel s).cam.trace.count (Effect.setStatus Status.Readout) =
      s.cam.trace.count (Effect.setStatus Status.Readout) := by
  unfold AcqThread.loopExit
  rw [retrieveLoop_count env.ticks _ (by simp) (by simp) (by simp) (by simp), starting_eq]
  by_cases h : env.startRc = NO_ERROR <;> simp [h, List.count_append, List.count_cons]

theorem loopExit_count_bias_off (env : RunEnv) (fuel : Nat) (s : AcqState) :
    (AcqThread.loopExit env fuel s).cam.trace.count (Effect.setHvBiasOn false) =
      s.cam.trace.count (Effect.setHvBiasOn false) +
        (if env.startRc = NO_ERROR then 0 else 1) := by
  unfold AcqThread.loopExit
  rw [retrieveLoop_count env.ticks _ (by simp) (by simp) (by simp) (by simp), starting_eq]
  by_cases h : env.startRc = NO_ERROR <;> simp [h, List.count_append, List.count_cons]

/-- C17. The trigger-failed flag is sticky: a run that ends on code 30 in mode
`ExtGate` with `m_image_number = 0` leaves `trigger_failed` set; no later
session of the outer loop and no later run of the same worker clears it; and
in every later run, whatever the vendor codes are (all successful included),
the worker never writes status `Readout`, issues no bias-off command other
than the one of the start-failure path, and its stopping phase consists of
clearing `m_acq_started`, the vendor `stopAcq` and the final status write. -/
theorem trigger_failed_sticky (env1 : RunEnv) (fuel1 i : Nat) (s : AcqState)
    (hcond : ((env1.ticks i).arrive s).loopCond = true) (hrc : (env1.ticks i).rc = 30)
    (hmode : s.cam.m_trig_mode = TrigMode.ExtGate) (himg : s.cam.m_image_number = 0)
    (sessions : List Session) (s2 : AcqState) (env2 : RunEnv) (fuel2 : Nat)
    (hlater : s2.trigger_failed =
      (AcqThread.finish env1 (fuel1 + 1) i s).state.trigger_failed) :
    (AcqThread.finish env1 (fuel1 + 1) i s).state.trigger_failed = true ∧
      (AcqThread.outerLoop sessions s2).state.trigger_failed = true ∧
      (AcqThread.run env2 fuel2 s2).state.trigger_failed = true ∧
      (AcqThread.run env2 fuel2 s2).state.cam.trace.count (Effect.setStatus Status.Readout) =
        s2.cam.trace.count (Effect.setStatus Status.Readout) ∧
      (AcqThread.run env2 fuel2 s2).state.cam.trace.count (Effect.setHvBiasOn false) =
        s2.cam.trace.count (Effect.setHvBiasOn false) +
          (if env2.startRc = NO_ERROR then 0 else 1) ∧
      AcqThread.stopping env2.stopRc env2.stopBiasRc (AcqThread.loopExit env2 fuel2 s2) =
        Except.ok { AcqThread.loopExit env2 fuel2 s2 with cam :=
          { (AcqThread.loopExit env2 fuel2 s2).cam with
            m_acq_started := false
            m_status :=
              if (AcqThread.loopExit env2 fuel2 s2).rc = NO_ERROR ∧ env2.stopRc = NO_ERROR
                then Status.Ready else Status.Fault
            trace := (AcqThread.loopExit env2 fuel2 s2).cam.trace ++ [Effect.stopAcq,
              Effect.setStatus
                (if (AcqThread.loopExit env2 fuel2 s2).rc = NO_ERROR ∧ env2.stopRc = NO_ERROR
                  then Status.Ready else Status.Fault)] } } := by
  obtain ⟨-, k2, -, k4, -, -⟩ := arrive_keeps (env1.ticks i) s
  have hb := loopBody_gate_timeout_first (env1.ticks i) ((env1.ticks i).arrive s) hrc
    (by rw [k4]; exact hmode) (by rw [k2]; exact himg)
  have hl := retrieveLoop_break env1.ticks fuel1 i s hcond (by rw [hb])
  rw [hb] at hl
  have hexit : (AcqThread.retrieveLoop env1.ticks (fuel1 + 1) i s).2 = true := by rw [hl]
  have htf : (AcqThread.retrieveLoop env1.ticks (fuel1 + 1) i s).1.trigger_failed = true := by
    rw [hl]
  obtain ⟨-, -, f3, -⟩ := finish_exit_completed env1 (fuel1 + 1) i s hexit (Or.inl htf)
  have h1 : (AcqThread.finish env1 (fuel1 + 1) i s).state.trigger_failed = true := by
    rw [f3, htf]
  have h2 : s2.trigger_failed = true := hlater.trans h1
  refine ⟨h1, outerLoop_trigger_failed sessions s2 h2, run_trigger_failed env2 fuel2 s2 h2,
    ?_, ?_, stopping_trigger_failed _ _ _ (loopExit_trigger_failed env2 fuel2 s2 h2)⟩
  · rw [run_eq_of_trigger_failed env2 fuel2 s2 h2, ← loopExit_count_readout env2 fuel2 s2]
    split_ifs <;> simp [RunResult.state, List.count_append, List.count_cons]
  · rw [run_eq_of_trigger_failed env2 fuel2 s2 h2, ← loopExit_count_bias_off env2 fuel2 s2]
    split_ifs <;> simp [RunResult.state, List.count_append, List.count_cons]

/-- Witness for C17: a run on the gate camera ends on code 30 with no frame;
the same worker then runs on the fresh camera with frame limit 4 and only
successful vendor calls: the flag is still set, no status `Readout` and no
bias-off command appear, and the final status is `Ready`. -/
theorem trigger_failed_sticky_witness :
    (AcqThread.run (constEnv NO_ERROR NO_ERROR) 5
        wokenAfterTriggerFailure).state.trigger_failed = true ∧
      (AcqThread.run (constEnv NO_ERROR NO_ERROR) 5
          wokenAfterTriggerFailure).state.cam.trace.count (Effect.setStatus Status.Readout) =
        wokenAfterTriggerFailure.cam.trace.count (Effect.setStatus Status.Readout) ∧
      (AcqThread.run (constEnv NO_ERROR NO_ERROR) 5
          wokenAfterTriggerFailure).state.cam.trace.count (Effect.setStatus Status.Readout) = 0 ∧
      (AcqThread.run (constEnv NO_ERROR NO_ERROR) 5
          wokenAfterTriggerFailure).state.cam.trace.count (Effect.setHvBiasOn false) = 0 ∧
      (AcqThread.run (constEnv NO_ERROR NO_ERROR) 5 wokenAfterTriggerFailure).finalStatus
        = some Status.Ready :=
  ⟨(trigger_failed_sticky (constEnv NO_ERROR 30) 0 0
      (AcqThread.starting NO_ERROR NO_ERROR (wokenWorker gateCamera)) (by decide) rfl rfl rfl
      [] wokenAfterTriggerFailure (constEnv NO_ERROR NO_ERROR) 5 rfl).2.2.1,
    (trigger_failed_sticky (constEnv NO_ERROR 30) 0 0
      (AcqThread.starting NO_ERROR NO_ERROR (wokenWorker gateCamera)) (by decide) rfl rfl rfl
      [] wokenAfterTriggerFailure (constEnv NO_ERROR NO_ERROR) 5 rfl).2.2.2.1,
    by decide, by decide, by decide⟩

/-! ## Final status and the last vendor code (C18) -/

theorem retrieveCodes_succ (ticks : Nat → Tick) (fuel i : Nat) (s : AcqState) :
    AcqThread.retrieveCodes ticks (fuel + 1) i s =
      if ((ticks i).arrive s).loopCond then
        if (AcqThread.loopBody (ticks i) ((ticks i).arrive s)).2 then [(ticks i).rc]
        else
          (ticks i).rc :: AcqThread.retrieveCodes ticks fuel (i + 1)
            (AcqThread.loopBody (ticks i) ((ticks i).arrive s)).1
      else [] := by
  rw [AcqThread.retrieveCodes]
  split_ifs with h1 h2
  · rcases hb : AcqThread.loopBody (ticks i) ((ticks i).arrive s) with ⟨s', b⟩
    rw [hb] at h2
    simp only at h2
    subst h2
    rfl
  · rcases hb : AcqThread.loopBody (ticks i) ((ticks i).arrive s) with ⟨s', b⟩
    rw [hb] at h2
    simp only [Bool.not_eq_true] at h2
    subst h2
    rfl
  · rfl

theorem loopBody_rc (t : Tick) (s : AcqState) :
    (AcqThread.loopBody t s).1.cam.m_trig_mode = s.cam.m_trig_mode ∧
      ((AcqThread.loopBody t s).2 = false →
        (AcqThread.loopBody t s).1.rc = t.rc ∧ t.rc ≠ 30) ∧
      ((AcqThread.loopBody t s).2 = true →
        (AcqThread.loopBody t s).1.cam.m_image_number = s.cam.m_image_number ∧
          (AcqThread.loopBody t s).1.rc =
            (if t.rc = 30 ∧ s.cam.m_trig_mode = TrigMode.ExtGate ∧ 0 < s.cam.m_image_number
              then NO_ERROR else t.rc)) := by
  unfold AcqThread.loopBody Camera.emit Camera.getStatus
  simp only
  split_ifs with h1 h2 h3 h4 h5 <;> simp_all [NO_ERROR]
  omega

theorem lastSeenCode_nil (startRc : Int) (mode : TrigMode) (n : Int) :
    lastSeenCode startRc [] mode n = startRc := rfl

theorem lastSeenCode_singleton (startRc c : Int) (mode : TrigMode) (n : Int) :
    lastSeenCode startRc [c] mode n =
      (if c = 30 ∧ mode = TrigMode.ExtGate ∧ 0 < n then NO_ERROR else c) := rfl

theorem lastSeenCode_cons (startRc c : Int) (cs : List Int) (mode : TrigMode) (n : Int)
    (hc : c ≠ 30) : lastSeenCode startRc (c :: cs) mode n = lastSeenCode c cs mode n := by
  cases cs with
  | nil =>
    rw [lastSeenCode_singleton, lastSeenCode_nil, if_neg (fun h => hc h.1)]
  | cons d ds =>
    unfold lastSeenCode
    rw [List.getLast?_cons_cons]
    have hne : (d :: ds).getLast? = some ((d :: ds).getLast (by simp)) :=
      List.getLast?_eq_getLast _ _
    rw [hne]

theorem retrieveLoop_rc (ticks : Nat → Tick) :
    ∀ (fuel i : Nat) (s : AcqState),
      (AcqThread.retrieveLoop ticks fuel i s).1.rc =
        lastSeenCode s.rc (AcqThread.retrieveCodes ticks fuel i s) s.cam.m_trig_mode
          (AcqThread.retrieveLoop ticks fuel i s).1.cam.m_image_number := by
  intro fuel
  induction fuel with
  | zero => intro i s; rfl
  | succ fuel ih =>
    intro i s
    obtain ⟨-, k2, -, k4, -, -⟩ := arrive_keeps (ticks i) s
    obtain ⟨b1, b2, b3⟩ := loopBody_rc (ticks i) ((ticks i).arrive s)
    rw [k4] at b1
    rw [retrieveLoop_succ, retrieveCodes_succ]
    split_ifs with h1 h2
    · obtain ⟨c1, c2⟩ := b3 h2
      rw [lastSeenCode_singleton]
      show (AcqThread.loopBody (ticks i) ((ticks i).arrive s)).1.rc =
        if _ ∧ _ ∧ 0 < (AcqThread.loopBody (ticks i) ((ticks i).arrive s)).1.cam.m_image_number
          then _ else _
      rw [c2, c1, k4]
    · obtain ⟨c1, c2⟩ := b2 (by simpa using h2)
      rw [ih, b1, c1, lastSeenCode_cons _ _ _ _ _ c2]
    · rfl

theorem starting_trig_mode (startRc biasRc : Int) (s : AcqState) :
    (AcqThread.starting startRc biasRc s).cam.m_trig_mode = s.cam.m_trig_mode := by
  rw [starting_eq]

theorem lastSeenCode_of_getLast (startRc c : Int) (codes : List Int) (mode : TrigMode)
    (n : Int) (h : codes.getLast? = some c) :
    lastSeenCode startRc codes mode n =
      (if c = 30 ∧ mode = TrigMode.ExtGate ∧ 0 < n then NO_ERROR else c) := by
  unfold lastSeenCode
  rw [h]

theorem final_status_cases (st : Status) (rc stopRc : Int)
    (hst : st = if rc = NO_ERROR ∧ stopRc = NO_ERROR then Status.Ready else Status.Fault) :
    (some st = some Status.Ready ↔ stopRc = NO_ERROR ∧ rc = NO_ERROR) ∧
      (some st = some Status.Ready ∨ some st = some Status.Fault) ∧
      (rc ≠ NO_ERROR → some st = some Status.Fault) := by
  by_cases h : rc = NO_ERROR ∧ stopRc = NO_ERROR
  · rw [if_pos h] at hst
    subst hst
    exact ⟨⟨fun _ => ⟨h.2, h.1⟩, fun _ => rfl⟩, Or.inl rfl, fun c => absurd h.1 c⟩
  · rw [if_neg h] at hst
    subst hst
    exact ⟨⟨fun c => absurd c (by decide), fun c => absurd ⟨c.2, c.1⟩ h⟩, Or.inr rfl,
      fun _ => rfl⟩

/-- C18. Final status follows the last vendor code seen: the code held in `rc`
when the retrieval phase ends is the result of the last retrieve call if at
least one was made (rewritten to success for a gate timeout after at least one
frame) and the vendor start result otherwise; in a run that reaches the final
status write, the status is `Ready` exactly when the vendor stop call
succeeded and that code is success, and `Fault` otherwise. Consequently a run
whose last retrieve returned 27 or 2818 ends in `Fault`, and a run whose last
retrieve succeeded and whose stop call succeeded ends in `Ready`, whatever the
vendor start call returned. -/
theorem final_status_follows_last_code (env : RunEnv) (fuel : Nat) (s : AcqState)
    (hfinal : (AcqThread.run env fuel s).finalStatus ≠ none) :
    (AcqThread.loopExit env fuel s).rc =
        lastSeenCode env.startRc
          (AcqThread.retrieveCodes env.ticks fuel 0
            (AcqThread.starting env.startRc env.startBiasRc s))
          s.cam.m_trig_mode (AcqThread.loopExit env fuel s).cam.m_image_number ∧
      ((AcqThread.run env fuel s).finalStatus = some Status.Ready ↔
        env.stopRc = NO_ERROR ∧
          lastSeenCode env.startRc
            (AcqThread.retrieveCodes env.ticks fuel 0
              (AcqThread.starting env.startRc env.startBiasRc s))
            s.cam.m_trig_mode (AcqThread.loopExit env fuel s).cam.m_image_number = NO_ERROR) ∧
      ((AcqThread.run env fuel s).finalStatus = some Status.Ready ∨
        (AcqThread.run env fuel s).finalStatus = some Status.Fault) ∧
      (((AcqThread.retrieveCodes env.ticks fuel 0
            (AcqThread.starting env.startRc env.startBiasRc s)).getLast? = some 27 ∨
          (AcqThread.retrieveCodes env.ticks fuel 0
            (AcqThread.starting env.startRc env.startBiasRc s)).getLast? = some 2818) →
        (AcqThread.run env fuel s).finalStatus = some Status.Fault) ∧
      ((AcqThread.retrieveCodes env.ticks fuel 0
            (AcqThread.starting env.startRc env.startBiasRc s)).getLast? = some NO_ERROR →
        env.stopRc = NO_ERROR →
        (AcqThread.run env fuel s).finalStatus = some Status.Ready) := by
  have hrc : (AcqThread.loopExit env fuel s).rc =
      lastSeenCode env.startRc
        (AcqThread.retrieveCodes env.ticks fuel 0
          (AcqThread.starting env.startRc env.startBiasRc s))
        s.cam.m_trig_mode (AcqThread.loopExit env fuel s).cam.m_image_number := by
    unfold AcqThread.loopExit
    rw [retrieveLoop_rc, starting_trig_mode, (starting_fields env.startRc env.startBiasRc s).1]
  obtain ⟨st, hst0⟩ : ∃ st, (AcqThread.run env fuel s).finalStatus = some st := by
    cases hf : (AcqThread.run env fuel s).finalStatus with
    | none => exact absurd hf hfinal
    | some st => exact ⟨st, rfl⟩
  rw [hst0]
  unfold AcqThread.run at hst0
  obtain ⟨-, hst⟩ := finalStatus_some env fuel 0 _ st hst0
  change st = if (AcqThread.loopExit env fuel s).rc = NO_ERROR ∧ env.stopRc = NO_ERROR
    then Status.Ready else Status.Fault at hst
  rw [hrc] at hst
  obtain ⟨c1, c2, c3⟩ := final_status_cases st _ _ hst
  refine ⟨hrc, c1, c2, ?_, ?_⟩
  · intro h
    apply c3
    rcases h with h | h
    · rw [lastSeenCode_of_getLast _ _ _ _ _ h, if_neg (fun c => absurd c.1 (by decide))]
      decide
    · rw [lastSeenCode_of_getLast _ _ _ _ _ h, if_neg (fun c => absurd c.1 (by decide))]
      decide
  · intro h hstop
    apply c1.mpr
    refine ⟨hstop, ?_⟩
    rw [lastSeenCode_of_getLast _ _ _ _ _ h, if_neg (fun c => absurd c.1 (by decide))]

/-- Witness for C18: a run whose only retrieve returns 27 before `stopAcq()`
ends in `Fault`; a run whose vendor start returns the error code 1 and whose
four retrieves succeed ends in `Ready`. -/
theorem final_status_follows_last_code_witness :
    ((AcqThread.run skipThenStopEnv 3 (wokenWorker freshCamera)).finalStatus ≠ none ∧
        AcqThread.retrieveCodes skipThenStopEnv.ticks 3 0
          (AcqThread.starting skipThenStopEnv.startRc skipThenStopEnv.startBiasRc
            (wokenWorker freshCamera)) = [27] ∧
        (AcqThread.run skipThenStopEnv 3 (wokenWorker freshCamera)).finalStatus
          = some Status.Fault) ∧
      ((AcqThread.run (constEnv 1 NO_ERROR) 5 (wokenWorker freshCamera)).finalStatus ≠ none ∧
        (constEnv 1 NO_ERROR).startRc ≠ NO_ERROR ∧
        AcqThread.retrieveCodes (constEnv 1 NO_ERROR).ticks 5 0
          (AcqThread.starting (constEnv 1 NO_ERROR).startRc (constEnv 1 NO_ERROR).startBiasRc
            (wokenWorker freshCamera)) = [NO_ERROR, NO_ERROR, NO_ERROR, NO_ERROR] ∧
        (AcqThread.run (constEnv 1 NO_ERROR) 5 (wokenWorker freshCamera)).finalStatus
          = some Status.Ready) :=
  ⟨⟨by decide, by decide,
      (final_status_follows_last_code skipThenStopEnv 3 (wokenWorker freshCamera)
        (by decide)).2.2.2.1 (Or.inl (by decide))⟩,
    ⟨by decide, by decide, by decide,
      (final_status_follows_last_code (constEnv 1 NO_ERROR) 5 (wokenWorker freshCamera)
        (by decide)).2.2.2.2 (by decide) rfl⟩⟩

end Hexitec
